import Mathlib

set_option maxHeartbeats 1600000

/-! Shallow embedding of the TalentScout chatbot repository
    (source files: src/app.py and src/app_grok.py).

    Both source files are Streamlit scripts; one "turn" of the model below
    corresponds to one script run in which the user submitted one input.
    The external LLM call is abstracted by an oracle `llm` inside `Env`
    (its wrapper functions `call_llm` and `call_groq_api` are modelled
    precisely and separately below, and always return a plain string).
    Timestamps and file-write success are also supplied by `Env`.
    Pure render-only calls (st.info / st.success / st.error / st.warning)
    are recorded in a `notices` list, which is not part of the session's
    transcript and not part of the candidate record. -/

/-- Helper: does the character list `n` occur at the start of `h`? -/
def beginsWith : List Char → List Char → Bool
  | [], _ => true
  | _ :: _, [] => false
  | a :: as, b :: bs => (a == b) && beginsWith as bs

/-- Helper: does `n` occur as a contiguous sublist of `h`?  Mirrors the
Python substring test `n in h`. -/
def subIn : List Char → List Char → Bool
  | n, [] => n.isEmpty
  | n, b :: bs => beginsWith n (b :: bs) || subIn n bs

/-- Python `needle in hay` substring containment on strings. -/
def hasSub (needle hay : String) : Bool :=
  subIn needle.data hay.data

/-- Python `str.lower()` (ASCII case folding, character-wise). -/
def String.pyLower (s : String) : String :=
  String.mk (s.data.map Char.toLower)

/-- Python `str.strip()`: drop whitespace from both ends. -/
def String.pyStrip (s : String) : String :=
  String.mk (((s.data.dropWhile Char.isWhitespace).reverse.dropWhile Char.isWhitespace).reverse)

/-- Python slice `s[:n]` by characters. -/
def String.pyTake (s : String) (n : Nat) : String :=
  String.mk (s.data.take n)

/-- Dropping a prefix twice drops it once. -/
theorem dwdw {α : Type} (p : α → Bool) : ∀ l : List α,
    List.dropWhile p (List.dropWhile p l) = List.dropWhile p l := by
  intro l
  induction l with
  | nil => rfl
  | cons a l ih =>
    by_cases h : p a
    · simp [List.dropWhile_cons, h, ih]
    · simp [List.dropWhile_cons, h]

theorem dw_len_le {α : Type} (p : α → Bool) : ∀ l : List α,
    (List.dropWhile p l).length ≤ l.length := by
  intro l
  induction l with
  | nil => exact Nat.le_refl 0
  | cons a l ih =>
    by_cases h : p a
    · rw [List.dropWhile_cons, if_pos h]
      exact Nat.le_trans ih (Nat.le_succ _)
    · rw [List.dropWhile_cons, if_neg h]

theorem fc_head {α : Type} (p : α → Bool) (a : α) (l : List α)
    (h : List.dropWhile p (a :: l) = a :: l) : p a = false := by
  by_cases hp : p a
  · rw [List.dropWhile_cons, if_pos hp] at h
    have hlen := congrArg List.length h
    have hle := dw_len_le p l
    simp at hlen
    omega
  · simpa using hp

theorem fc_stripBack {α : Type} (p : α → Bool) (l : List α)
    (h : List.dropWhile p l = l) :
    List.dropWhile p ((l.reverse.dropWhile p).reverse) = (l.reverse.dropWhile p).reverse := by
  cases l with
  | nil => rfl
  | cons a l =>
    have hp := fc_head p a l h
    cases hE : List.dropWhile p l.reverse with
    | nil =>
        rw [List.reverse_cons, List.dropWhile_append, hE]
        simp [List.dropWhile_cons, hp]
    | cons b m =>
        rw [List.reverse_cons, List.dropWhile_append, hE]
        simp [List.reverse_append, List.dropWhile_cons, hp]

theorem bc_stripBack {α : Type} (p : α → Bool) (l : List α) :
    ((((l.reverse.dropWhile p).reverse).reverse.dropWhile p)).reverse =
      (l.reverse.dropWhile p).reverse := by
  rw [List.reverse_reverse, dwdw]

/-- Python stripping is idempotent. -/
theorem pyStrip_idem (s : String) : s.pyStrip.pyStrip = s.pyStrip := by
  unfold String.pyStrip
  show String.mk _ = String.mk _
  congr 1
  have h1 : List.dropWhile Char.isWhitespace
      (((s.data.dropWhile Char.isWhitespace).reverse.dropWhile Char.isWhitespace).reverse) =
      ((s.data.dropWhile Char.isWhitespace).reverse.dropWhile Char.isWhitespace).reverse :=
    fc_stripBack Char.isWhitespace (s.data.dropWhile Char.isWhitespace) (dwdw _ _)
  rw [h1]
  exact bc_stripBack Char.isWhitespace (s.data.dropWhile Char.isWhitespace)

/-- Leading maximal digit run of a character list. -/
def takeDigits : List Char → List Char
  | [] => []
  | c :: cs => if c.isDigit then c :: takeDigits cs else []

/-- First maximal run of digits occurring in a character list, as a string;
mirrors `re.findall(r"\d+", s)[0]` (or `none` when `findall` is empty). -/
def firstDigits : List Char → Option String
  | [] => none
  | c :: cs => if c.isDigit then some (String.mk (c :: takeDigits cs)) else firstDigits cs

/-- The seven information fields of the candidate record. -/
inductive FieldKey where
  | name
  | email
  | phone
  | experience
  | position
  | location
  | tech_stack
deriving DecidableEq, Repr

/-- The conversation stage tag (a string in the source:
'greeting' / 'collect_info' / 'technical_questions' / 'farewell'). -/
inductive Stage where
  | greeting
  | collect_info
  | technical_questions
  | farewell
deriving DecidableEq, Repr

/-- Numeric rank of a stage along the declared one-directional order. -/
def stageRank : Stage → Nat
  | Stage.greeting => 0
  | Stage.collect_info => 1
  | Stage.technical_questions => 2
  | Stage.farewell => 3

/-- One transcript message, a Python dict with keys role and content. -/
structure Message where
  role : String
  content : String
deriving DecidableEq, Repr

/-- One stored technical answer (dict appended to
`candidate_data['technical_answers']`). -/
structure TechnicalAnswer where
  question_number : Nat
  answer : String
  timestamp : String
deriving DecidableEq, Repr

/-- The `st.session_state.candidate_data` dict: seven optional info fields
(`None` = not yet collected) plus the list of technical answers. -/
structure CandidateData where
  name : Option String
  email : Option String
  phone : Option String
  experience : Option String
  position : Option String
  location : Option String
  tech_stack : Option String
  technical_answers : List TechnicalAnswer
deriving DecidableEq, Repr

/-- The initial candidate_data dict with every field `None`. -/
def emptyData : CandidateData :=
  { name := none, email := none, phone := none, experience := none
    position := none, location := none, tech_stack := none
    technical_answers := [] }

/-- Dictionary read `candidate_data[field]`. -/
def getField (d : CandidateData) : FieldKey → Option String
  | FieldKey.name => d.name
  | FieldKey.email => d.email
  | FieldKey.phone => d.phone
  | FieldKey.experience => d.experience
  | FieldKey.position => d.position
  | FieldKey.location => d.location
  | FieldKey.tech_stack => d.tech_stack

/-- Dictionary write `candidate_data[field] = v`. -/
def setField (d : CandidateData) (f : FieldKey) (v : String) : CandidateData :=
  match f with
  | FieldKey.name => { d with name := some v }
  | FieldKey.email => { d with email := some v }
  | FieldKey.phone => { d with phone := some v }
  | FieldKey.experience => { d with experience := some v }
  | FieldKey.position => { d with position := some v }
  | FieldKey.location => { d with location := some v }
  | FieldKey.tech_stack => { d with tech_stack := some v }

/-- The declared field order (`required_fields` in app.py, `FIELD_ORDER`
in app_grok.py). -/
def FIELD_ORDER : List FieldKey :=
  [FieldKey.name, FieldKey.email, FieldKey.phone, FieldKey.experience,
   FieldKey.position, FieldKey.location, FieldKey.tech_stack]

/-- The Python string name of a field (the dict key). -/
def pyName : FieldKey → String
  | FieldKey.name => "name"
  | FieldKey.email => "email"
  | FieldKey.phone => "phone"
  | FieldKey.experience => "experience"
  | FieldKey.position => "position"
  | FieldKey.location => "location"
  | FieldKey.tech_stack => "tech_stack"

/-- Rendering of an optional field name in an f-string (Python renders
`None` as the text "None"). -/
def optFieldStr : Option FieldKey → String
  | some f => pyName f
  | none => "None"

/-- Rendering of an optional string in an f-string. -/
def optStr : Option String → String
  | some v => v
  | none => "None"

/-- The info-field part of a candidate record (everything except the
technical answers), used to state frame conditions. -/
def infoFields (d : CandidateData) :
    Option String × Option String × Option String × Option String ×
    Option String × Option String × Option String :=
  (d.name, d.email, d.phone, d.experience, d.position, d.location, d.tech_stack)

/-- A file written by `json.dump(data, f, indent=2)`: its path, the dumped
candidate record, and the indentation passed to the serializer. -/
structure SavedFile where
  path : String
  dumped : CandidateData
  indent : Nat
deriving DecidableEq, Repr

/-- Per-turn environment: the LLM wrapper as an oracle returning a string
(justified by the C5 theorems on the wrappers below), the outcome of a
file write (`none` = success, `some e` = the caught exception text), and
the two timestamp renderings produced by `datetime.now()` during the turn
(`isoformat()` and `strftime("%Y%m%d_%H%M%S")`). -/
structure Env where
  llm : String → String → String
  fsErr : Option String
  tsIso : String
  tsFile : String

/-- Outcome of one HTTP request to the text-generation service:
a successful response body, a transport-level exception
(`requests.exceptions.RequestException`, or the provider SDK error in
app.py), or any other exception raised while handling the response. -/
inductive NetOutcome where
  | ok (content : String)
  | transportErr (msg : String)
  | otherErr (msg : String)
deriving DecidableEq, Repr

/-- app_grok.py `call_groq_api`: the network is a stream of outcomes
`net : Nat → NetOutcome` and `k` counts requests already made; the result
pairs the returned string with the new request count.  An empty
`api_key` models a missing credential (`os.getenv` falling back to an
empty secret). -/
def call_groq_api (api_key : String) (net : Nat → NetOutcome) (k : Nat)
    (_prompt _system_prompt : String) : String × Nat :=
  if api_key = "" then
    ("⚠️ Add GROQ_API_KEY in environment or Streamlit secrets to enable AI responses.", k)
  else
    match net k with
    | NetOutcome.ok content => (content, k + 1)
    | NetOutcome.transportErr e => ("Error connecting to Groq API: " ++ e, k + 1)
    | NetOutcome.otherErr e => ("An unexpected error occurred: " ++ e, k + 1)

/-- app.py `call_llm`: same network model; every exception from the
provider call is caught by the single `except Exception` clause. -/
def call_llm (api_key : String) (net : Nat → NetOutcome) (k : Nat)
    (_prompt _system_prompt : String) : String × Nat :=
  if api_key = "" then
    ("⚠️ Please configure your API key in the .streamlit/secrets.toml file or environment variables.", k)
  else
    match net k with
    | NetOutcome.ok content => (content, k + 1)
    | NetOutcome.transportErr e =>
        ("Error calling LLM: " ++ e ++ "\n\nPlease check your API configuration.", k + 1)
    | NetOutcome.otherErr e =>
        ("Error calling LLM: " ++ e ++ "\n\nPlease check your API configuration.", k + 1)

namespace App

/-- Session state of src/app.py (the keys created on first run plus the
lazily created `technical_questions` key, the modelled file system and the
render-notice log). -/
structure State where
  messages : List Message
  candidate_data : CandidateData
  stage : Stage
  tech_questions_asked : Nat
  conversation_active : Bool
  technical_questions : String
  savedFiles : List SavedFile
  notices : List String
deriving Repr

/-- Initial session state (app.py lines 41-55). -/
def init : State :=
  { messages := []
    candidate_data := emptyData
    stage := Stage.greeting
    tech_questions_asked := 0
    conversation_active := true
    technical_questions := ""
    savedFiles := []
    notices := [] }

/-- SYSTEM_PROMPTS['greeting'] of app.py. -/
def SP_greeting : String :=
  "You are a friendly AI hiring assistant for TalentScout, a recruitment agency.\n    Greet the candidate warmly and briefly explain that you\x27ll be collecting their information\n    and asking some technical questions. Keep it concise and professional."

/-- SYSTEM_PROMPTS['collect_info'] of app.py. -/
def SP_collect_info : String :=
  "You are collecting candidate information. Based on what\x27s already collected,\n    ask for the next missing piece of information in a natural, conversational way.\n    Missing info will be provided in the prompt. Ask only ONE question at a time.\n    Be professional but friendly."

/-- SYSTEM_PROMPTS['generate_questions'] of app.py (template with the
literal placeholder \x7bnum\x7d, filled by `.format(num=5)`). -/
def SP_generate_questions : String :=
  "You are a technical interviewer. Generate \x7bnum\x7d relevant technical\n    questions based on the candidate\x27s tech stack. Questions should:\n    - Be specific to the technologies mentioned\n    - Range from intermediate to advanced level\n    - Test practical knowledge and problem-solving\n    - Be clear and concise\n    Return ONLY the questions, numbered 1-\x7bnum\x7d."

/-- SYSTEM_PROMPTS['evaluate_answer'] of app.py. -/
def SP_evaluate_answer : String :=
  "You are evaluating a technical answer. Provide brief, constructive feedback.\n    Be encouraging but honest. Keep response under 50 words."

/-- SYSTEM_PROMPTS['farewell'] of app.py. -/
def SP_farewell : String :=
  "Thank the candidate professionally for their time. Mention that the recruitment\n    team will review their responses and get back to them within 3-5 business days. Keep it brief."

/-- Python `template.format(num=n)`: replaces every literal \x7bnum\x7d. -/
def formatNum (template : String) (n : Nat) : String :=
  String.intercalate (toString n) (template.splitOn "\x7bnum\x7d")

/-- app.py `get_missing_info`: the first required field whose stored value
is `None`. -/
def get_missing_info (d : CandidateData) : Option FieldKey :=
  FIELD_ORDER.find? (fun f => (getField d f).isNone)

/-- app.py `extract_info_from_response`: strips the input; for the
experience field extracts the first digit run and appends " years" when
one exists. -/
def extract_info_from_response (user_input : String) (field : FieldKey) : String :=
  let ui := user_input.pyStrip
  if field = FieldKey.experience then
    match firstDigits ui.data with
    | some num => num ++ " years"
    | none => ui
  else ui

/-- app.py `generate_technical_questions`. -/
def generate_technical_questions (env : Env) (tech_stack : String) : String :=
  let prompt :=
    "Based on this tech stack: " ++ tech_stack ++
    "\n    \nGenerate 5 technical interview questions that assess practical knowledge and problem-solving.\nMake questions specific, clear, and progressively challenging.\nFormat: Return only numbered questions (1-5), nothing else."
  env.llm prompt (formatNum SP_generate_questions 5)

/-- app.py `save_candidate_data`: writes `candidate_<ts>.json` in the
working directory; success and failure are surfaced only through
`st.success` / `st.error` render notices. -/
def save_candidate_data (env : Env) (s : State) : State :=
  let filename := "candidate_" ++ env.tsFile ++ ".json"
  match env.fsErr with
  | none =>
      { s with savedFiles := s.savedFiles ++ [SavedFile.mk filename s.candidate_data 2]
               notices := s.notices ++ ["✅ Candidate data saved to " ++ filename] }
  | some e =>
      { s with notices := s.notices ++ ["Error saving data: " ++ e] }

/-- The exit-keyword list of app.py line 158. -/
def exit_keywords : List String :=
  ["bye", "goodbye", "exit", "quit", "end", "stop", "no thanks", "that\x27s all"]

/-- The exit branch of app.py `process_user_input` (lines 159-165). -/
def exitFlow (env : Env) (s : State) : State :=
  let s := { s with stage := Stage.farewell }
  let farewell_msg := env.llm "Generate farewell message" SP_farewell
  let s := { s with messages := s.messages ++ [Message.mk "assistant" (farewell_msg)] }
  let s := { s with conversation_active := false }
  save_candidate_data env s

/-- The stage-dispatch part of app.py `process_user_input`
(lines 168-228). -/
def stageDispatch (env : Env) (s : State) (user_input : String) : State :=
  match s.stage with
  | Stage.greeting =>
      let s := { s with stage := Stage.collect_info }
      let missing := get_missing_info s.candidate_data
      let prompt := "Ask for candidate\x27s " ++ optFieldStr missing ++ ". Be friendly and professional."
      let response := env.llm prompt SP_collect_info
      { s with messages := s.messages ++ [Message.mk "assistant" (response)] }
  | Stage.collect_info =>
      match get_missing_info s.candidate_data with
      | some missing =>
          let info := extract_info_from_response user_input missing
          let s := { s with candidate_data := setField s.candidate_data missing info }
          match get_missing_info s.candidate_data with
          | some next_missing =>
              let prompt :=
                "The candidate just provided their " ++ pyName missing ++ ": " ++ info ++
                ". Now ask for their " ++ pyName next_missing ++ "."
              let response := env.llm prompt SP_collect_info
              { s with messages := s.messages ++ [Message.mk "assistant" (response)] }
          | none =>
              let s := { s with stage := Stage.technical_questions }
              let tech_stack := optStr s.candidate_data.tech_stack
              let transition_msg :=
                "Great! I have all your information. Now let\x27s assess your technical skills in " ++
                tech_stack ++ ". I\x27ll ask you 5 questions."
              let s := { s with messages := s.messages ++ [Message.mk "assistant" (transition_msg)] }
              let questions := generate_technical_questions env tech_stack
              let s := { s with technical_questions := questions }
              { s with messages := s.messages ++
                  [Message.mk "assistant" (questions), Message.mk "assistant" ("Please answer Question 1:")] }
      | none => s
  | Stage.technical_questions =>
      let s := { s with candidate_data :=
        { s.candidate_data with technical_answers :=
            s.candidate_data.technical_answers ++
              [TechnicalAnswer.mk (s.tech_questions_asked + 1) user_input env.tsIso] } }
      let s := { s with tech_questions_asked := s.tech_questions_asked + 1 }
      let feedback := env.llm
        ("Provide brief encouraging feedback on this answer: " ++ user_input.pyTake 200)
        SP_evaluate_answer
      let s := { s with messages := s.messages ++ [Message.mk "assistant" (feedback)] }
      if s.tech_questions_asked < 5 then
        { s with messages := s.messages ++
            [Message.mk "assistant" ("Please answer Question " ++ toString (s.tech_questions_asked + 1) ++ ":")] }
      else
        let s := { s with stage := Stage.farewell }
        let farewell_msg := env.llm "Generate farewell message" SP_farewell
        let s := { s with messages := s.messages ++ [Message.mk "assistant" (farewell_msg)] }
        let s := { s with conversation_active := false }
        save_candidate_data env s
  | Stage.farewell => s

/-- app.py `process_user_input`: the exit-keyword shortcut, else the
stage dispatch. -/
def process_user_input (env : Env) (s : State) (user_input : String) : State :=
  let user_input_lower := user_input.pyLower.pyStrip
  if exit_keywords.any (fun keyword => hasSub keyword user_input_lower) then
    exitFlow env s
  else
    stageDispatch env s user_input

/-- The first-render greeting block of app.py (line 250): produce the
initial greeting when the transcript is empty. -/
def withGreeting (env : Env) (s : State) : State :=
  if s.messages.length = 0 then
    { s with messages := [Message.mk "assistant" (env.llm "Greet the candidate" SP_greeting)] }
  else s

/-- The chat-input handling of app.py (lines 262-270): the
conversation-active guard around the chat input, the truthiness check on
the submission, the user message append and `process_user_input`. -/
def submitFlow (env : Env) (s : State) (user_input : String) : State :=
  if s.conversation_active = false then s
  else if user_input = "" then s
  else
    let s := { s with messages := s.messages ++ [Message.mk "user" (user_input)] }
    process_user_input env s user_input

/-- One script run of app.py in which the user submitted `user_input`
(empty string = no submission). -/
def turn (env : Env) (s : State) (user_input : String) : State :=
  submitFlow env (withGreeting env s) user_input

/-- A whole app.py session: fold the turns over the initial state. -/
def run (turns : List (Env × String)) : State :=
  turns.foldl (fun s t => turn t.1 s t.2) init

end App

namespace Grok

/-- Session state of src/app_grok.py (its session keys, lines 43-70, plus
the modelled file system and the render-notice log). -/
structure State where
  messages : List Message
  candidate_data : CandidateData
  current_field_index : Nat
  tech_questions_asked : Nat
  conversation_active : Bool
  technical_questions : String
  stage : Stage
  greeted : Bool
  last_user_message : Option String
  dirs : List String
  savedFiles : List SavedFile
  notices : List String
deriving Repr

/-- Initial session state of app_grok.py. -/
def init : State :=
  { messages := []
    candidate_data := emptyData
    current_field_index := 0
    tech_questions_asked := 0
    conversation_active := true
    technical_questions := ""
    stage := Stage.greeting
    greeted := false
    last_user_message := none
    dirs := []
    savedFiles := []
    notices := [] }

/-- The state with the render-notice log erased: exactly the session
state the script stores (st.info / st.warning / st.success calls render
text but store nothing). -/
def sessionOf (s : State) : State :=
  { s with notices := [] }

/-- FIELD_PROMPTS of app_grok.py. -/
def FIELD_PROMPTS : FieldKey → String
  | FieldKey.name => "full name"
  | FieldKey.email => "email address"
  | FieldKey.phone => "phone number"
  | FieldKey.experience => "years of experience"
  | FieldKey.position => "desired position"
  | FieldKey.location => "current location"
  | FieldKey.tech_stack => "tech stack (programming languages, frameworks, tools)"

/-- SYSTEM_PROMPTS['greeting'] of app_grok.py. -/
def SP_greeting : String :=
  "You are a friendly AI hiring assistant for TalentScout.\nGreet the candidate warmly and explain you\x27ll collect their information and ask technical questions. Keep it to 2-3 sentences."

/-- SYSTEM_PROMPTS['collect_info'] of app_grok.py. -/
def SP_collect_info : String :=
  "You are collecting candidate information.\nAsk for the specified information naturally and briefly. One short question only. If the prompt contains \x27Thank them briefly\x27, include a short thank you before the question."

/-- SYSTEM_PROMPTS['generate_questions'] of app_grok.py. -/
def SP_generate_questions : String :=
  "Generate 5 technical interview questions based on the tech stack.\nBe specific to the technologies mentioned. Return ONLY numbered questions 1-5."

/-- SYSTEM_PROMPTS['evaluate_answer'] of app_grok.py. -/
def SP_evaluate_answer : String :=
  "Provide brief encouraging feedback in 1-2 sentences. Under 30 words."

/-- SYSTEM_PROMPTS['farewell'] of app_grok.py. -/
def SP_farewell : String :=
  "Thank the candidate professionally. Mention the team will review responses\nand contact them in 3-5 business days. Keep brief."

/-- app_grok.py `generate_technical_questions`. -/
def generate_technical_questions (env : Env) (tech_stack : String) : String :=
  env.llm ("Tech stack: " ++ tech_stack ++ "\n\nGenerate 5 specific technical questions. Format: numbered 1-5 only.")
    SP_generate_questions

/-- Python `candidate_data.get('name', 'unknown') or 'unknown'` followed
by `str(name).replace(" ", "_")`: the sanitized file-name component. -/
def sanitizedName (name : Option String) : String :=
  let n :=
    match name with
    | some v => if v = "" then "unknown" else v
    | none => "unknown"
  n.replace " " "_"

/-- app_grok.py `save_candidate_data`: creates the `candidate_data`
directory, writes `candidate_data/<sanitized name>_<ts>.json` with
indent 2, and returns a success or error message string; exceptions are
caught and turned into the error string. -/
def save_candidate_data (env : Env) (s : State) : State × String :=
  match env.fsErr with
  | none =>
      let filename := "candidate_data/" ++ sanitizedName s.candidate_data.name ++ "_" ++ env.tsFile ++ ".json"
      ({ s with dirs := if s.dirs.contains "candidate_data" then s.dirs else s.dirs ++ ["candidate_data"]
                savedFiles := s.savedFiles ++ [SavedFile.mk filename s.candidate_data 2] },
       "✅ Data saved: `" ++ filename ++ "`")
  | some e => (s, "Error saving data: " ++ e)

/-- app_grok.py `ask_next_info_field`: ask for the field at
`current_field_index`, or — when all seven are collected — transition to
the technical-questions stage, emit the transition message, generate the
five questions and prompt for answer 1. -/
def ask_next_info_field (env : Env) (is_first : Bool) (s : State) : State :=
  if s.current_field_index < FIELD_ORDER.length then
    let next_field := FIELD_ORDER.getD s.current_field_index FieldKey.name
    let prompt :=
      if is_first then
        "Ask for their " ++ FIELD_PROMPTS next_field ++ ". One short question."
      else
        "Thank them briefly. Then ask for their " ++ FIELD_PROMPTS next_field ++ ". Keep short."
    let response := env.llm prompt SP_collect_info
    { s with messages := s.messages ++ [Message.mk "assistant" response] }
  else
    let s := { s with stage := Stage.technical_questions }
    let tech_stack :=
      match s.candidate_data.tech_stack with
      | some v => if v = "" then "unspecified tech stack" else v
      | none => "unspecified tech stack"
    let transition_msg :=
      "Perfect! Now let\x27s assess your **" ++ tech_stack ++ "** skills. I\x27ll ask 5 questions."
    let s := { s with messages := s.messages ++ [Message.mk "assistant" transition_msg] }
    let questions := generate_technical_questions env tech_stack
    let s := { s with technical_questions := questions }
    { s with messages := s.messages ++
        [Message.mk "assistant" questions,
         Message.mk "assistant" "\n**Please answer Question 1:**"] }

/-- app_grok.py `handle_greeting_stage`: greet exactly once, move to
collect_info and ask the first field. -/
def handle_greeting_stage (env : Env) (s : State) : State :=
  if s.greeted then s
  else
    let greeting := env.llm "Greet the candidate for a hiring interview" SP_greeting
    let s := { s with messages := s.messages ++ [Message.mk "assistant" greeting] }
    let s := { s with greeted := true, stage := Stage.collect_info }
    ask_next_info_field env true s

/-- app_grok.py `process_user_input_info`: store the stripped input into
the field at `current_field_index`, advance the index and ask the next
field; defensively move to technical questions when the index is already
past the last field. -/
def process_user_input_info (env : Env) (s : State) (user_input : String) : State :=
  if s.current_field_index < FIELD_ORDER.length then
    let current_field := FIELD_ORDER.getD s.current_field_index FieldKey.name
    let s := { s with candidate_data := setField s.candidate_data current_field user_input.pyStrip }
    let s := { s with current_field_index := s.current_field_index + 1 }
    ask_next_info_field env false s
  else
    let s := { s with stage := Stage.technical_questions }
    ask_next_info_field env false s

/-- app_grok.py `process_user_input_technical`: append the answer with the
next sequential question number, append feedback, then either prompt for
the next question or finish (farewell, save, deactivate). -/
def process_user_input_technical (env : Env) (s : State) (user_input : String) : State :=
  let qa := TechnicalAnswer.mk (s.tech_questions_asked + 1) user_input env.tsIso
  let s := { s with candidate_data :=
    { s.candidate_data with technical_answers := s.candidate_data.technical_answers ++ [qa] } }
  let s := { s with tech_questions_asked := s.tech_questions_asked + 1 }
  let feedback := env.llm
    ("Brief encouraging feedback on the answer: " ++ user_input.pyTake 200 ++ "...")
    SP_evaluate_answer
  let s := { s with messages := s.messages ++ [Message.mk "assistant" feedback] }
  if s.tech_questions_asked < 5 then
    { s with messages := s.messages ++
        [Message.mk "assistant"
          ("\n**Please answer Question " ++ toString (s.tech_questions_asked + 1) ++ ":**")] }
  else
    let farewell := env.llm "Generate farewell" SP_farewell
    let s := { s with messages := s.messages ++ [Message.mk "assistant" farewell] }
    let (s, save_message) := save_candidate_data env s
    let s := { s with messages := s.messages ++ [Message.mk "assistant" save_message] }
    { s with conversation_active := false }

/-- The exit-keyword list of app_grok.py line 276. -/
def exit_keywords : List String :=
  ["bye", "goodbye", "exit", "quit", "end", "stop"]

/-- The exit branch of the app_grok.py submit handler (lines 277-281). -/
def exitFlow (env : Env) (s : State) : State :=
  let farewell := env.llm "Generate farewell" SP_farewell
  let (s, save_message) := save_candidate_data env s
  let s := { s with messages := s.messages ++
      [Message.mk "assistant" farewell, Message.mk "assistant" save_message] }
  { s with conversation_active := false }

/-- The submit handler of app_grok.py (lines 258-295): the
conversation-active guard around the form, stripping, the emptiness
check, the duplicate guard, the user-message append, the exit-keyword
shortcut, and the stage routing. -/
def submitFlow (env : Env) (s : State) (user_input : String) : State :=
  if s.conversation_active = false then s
  else
    let raw := user_input.pyStrip
    if raw = "" then
      { s with notices := s.notices ++ ["Please type something before sending."] }
    else if s.last_user_message = some raw then
      { s with notices := s.notices ++ ["Duplicate message detected — ignored."] }
    else
      let s := { s with last_user_message := some raw }
      let s := { s with messages := s.messages ++ [Message.mk "user" raw] }
      if exit_keywords.any (fun word => hasSub word raw.pyLower) then
        exitFlow env s
      else
        match s.stage with
        | Stage.collect_info => process_user_input_info env s raw
        | Stage.technical_questions => process_user_input_technical env s raw
        | _ =>
            let s := { s with messages := s.messages ++
                [Message.mk "assistant" "I\x27m not sure what to do next. Restarting interview."] }
            { s with conversation_active := false }

/-- One script run of app_grok.py in which the user submitted
`user_input`: the greeting handler (line 237) followed by the submit
handler. -/
def turn (env : Env) (s : State) (user_input : String) : State :=
  submitFlow env (if s.stage = Stage.greeting then handle_greeting_stage env s else s) user_input

/-- A whole app_grok.py session: fold the turns over the initial state. -/
def run (turns : List (Env × String)) : State :=
  turns.foldl (fun s t => turn t.1 s t.2) init

end Grok

/-- Modelled from the spec: the fixed exit-keyword set named in section
4.1 of the specification, \x7bbye, goodbye, exit, quit, end, stop\x7d,
used to compare the spec wording against the two source keyword lists. -/
def specExitKeywords : List String :=
  ["bye", "goodbye", "exit", "quit", "end", "stop"]

/-- A concrete environment for witnesses: constant LLM oracle, successful
file writes, fixed timestamps. -/
def envC : Env :=
  { llm := fun _ _ => "OK", fsErr := none, tsIso := "2025-01-01T00:00:00", tsFile := "20250101_000000" }

/-- A concrete environment whose file write fails with a caught
exception. -/
def envF : Env :=
  { llm := fun _ _ => "OK", fsErr := some "disk full", tsIso := "2025-01-01T00:00:00", tsFile := "20250101_000000" }

/-- Field reads after a field write: the written key holds the new value,
all other keys are untouched. -/
theorem getField_setField (d : CandidateData) (f g : FieldKey) (v : String) :
    getField (setField d g v) f = if f = g then some v else getField d f := by
  cases f <;> cases g <;> simp [getField, setField]

/-- A field write never changes the technical answers. -/
theorem setField_answers (d : CandidateData) (g : FieldKey) (v : String) :
    (setField d g v).technical_answers = d.technical_answers := by
  cases g <;> simp [setField]

namespace App

theorem save_eq_ok (env : Env) (s : State) (e0 : env.fsErr = none) :
    save_candidate_data env s =
      { s with savedFiles := s.savedFiles ++
          [SavedFile.mk ("candidate_" ++ env.tsFile ++ ".json") s.candidate_data 2]
               notices := s.notices ++
          ["✅ Candidate data saved to " ++ ("candidate_" ++ env.tsFile ++ ".json")] } := by
  simp [save_candidate_data, e0]

theorem save_eq_err (env : Env) (s : State) (e : String) (e0 : env.fsErr = some e) :
    save_candidate_data env s = { s with notices := s.notices ++ ["Error saving data: " ++ e] } := by
  simp [save_candidate_data, e0]

theorem save_session (env : Env) (s : State) :
    (save_candidate_data env s).stage = s.stage ∧
    (save_candidate_data env s).candidate_data = s.candidate_data ∧
    (save_candidate_data env s).messages = s.messages ∧
    (save_candidate_data env s).conversation_active = s.conversation_active ∧
    (save_candidate_data env s).tech_questions_asked = s.tech_questions_asked := by
  unfold save_candidate_data
  split <;> exact ⟨rfl, rfl, rfl, rfl, rfl⟩

theorem exitFlow_eq (env : Env) (s : State) :
    exitFlow env s =
      save_candidate_data env
        { s with stage := Stage.farewell
                 messages := s.messages ++
                   [Message.mk "assistant" (env.llm "Generate farewell message" SP_farewell)]
                 conversation_active := false } := rfl

theorem dispatch_greeting (env : Env) (s : State) (i : String) (hs : s.stage = Stage.greeting) :
    stageDispatch env s i =
      { s with stage := Stage.collect_info
               messages := s.messages ++
                 [Message.mk "assistant" (env.llm
                   ("Ask for candidate\x27s " ++ optFieldStr (get_missing_info s.candidate_data) ++
                    ". Be friendly and professional.") SP_collect_info)] } := by
  unfold stageDispatch
  rw [hs]

theorem dispatch_collect_more (env : Env) (s : State) (i : String) (f g : FieldKey)
    (hs : s.stage = Stage.collect_info)
    (hf : get_missing_info s.candidate_data = some f)
    (hg : get_missing_info (setField s.candidate_data f (extract_info_from_response i f)) = some g) :
    stageDispatch env s i =
      { s with candidate_data := setField s.candidate_data f (extract_info_from_response i f)
               messages := s.messages ++
                 [Message.mk "assistant" (env.llm
                   ("The candidate just provided their " ++ pyName f ++ ": " ++
                    extract_info_from_response i f ++ ". Now ask for their " ++ pyName g ++ ".")
                   SP_collect_info)] } := by
  unfold stageDispatch
  rw [hs]
  simp only [hf, hg]

theorem dispatch_collect_done (env : Env) (s : State) (i : String) (f : FieldKey)
    (hs : s.stage = Stage.collect_info)
    (hf : get_missing_info s.candidate_data = some f)
    (hg : get_missing_info (setField s.candidate_data f (extract_info_from_response i f)) = none) :
    stageDispatch env s i =
      (let d := setField s.candidate_data f (extract_info_from_response i f)
       let q := generate_technical_questions env (optStr d.tech_stack)
       { s with stage := Stage.technical_questions
                candidate_data := d
                technical_questions := q
                messages := s.messages ++
                  [Message.mk "assistant"
                    ("Great! I have all your information. Now let\x27s assess your technical skills in " ++
                     optStr d.tech_stack ++ ". I\x27ll ask you 5 questions."),
                   Message.mk "assistant" q,
                   Message.mk "assistant" "Please answer Question 1:"] }) := by
  unfold stageDispatch
  rw [hs]
  simp only [hf, hg]
  simp

theorem dispatch_collect_none (env : Env) (s : State) (i : String)
    (hs : s.stage = Stage.collect_info)
    (hf : get_missing_info s.candidate_data = none) :
    stageDispatch env s i = s := by
  unfold stageDispatch
  rw [hs]
  simp only [hf]

theorem dispatch_tech_continue (env : Env) (s : State) (i : String)
    (hs : s.stage = Stage.technical_questions)
    (h5 : s.tech_questions_asked + 1 < 5) :
    stageDispatch env s i =
      { s with candidate_data := { s.candidate_data with technical_answers :=
                 s.candidate_data.technical_answers ++
                   [TechnicalAnswer.mk (s.tech_questions_asked + 1) i env.tsIso] }
               tech_questions_asked := s.tech_questions_asked + 1
               messages := s.messages ++
                 [Message.mk "assistant" (env.llm
                    ("Provide brief encouraging feedback on this answer: " ++ i.pyTake 200)
                    SP_evaluate_answer),
                  Message.mk "assistant"
                    ("Please answer Question " ++ toString (s.tech_questions_asked + 1 + 1) ++ ":")] } := by
  unfold stageDispatch
  rw [hs]
  simp only [h5, if_true]
  simp

theorem dispatch_tech_finish (env : Env) (s : State) (i : String)
    (hs : s.stage = Stage.technical_questions)
    (h5 : ¬ (s.tech_questions_asked + 1 < 5)) :
    stageDispatch env s i =
      save_candidate_data env
        { s with candidate_data := { s.candidate_data with technical_answers :=
                   s.candidate_data.technical_answers ++
                     [TechnicalAnswer.mk (s.tech_questions_asked + 1) i env.tsIso] }
                 tech_questions_asked := s.tech_questions_asked + 1
                 stage := Stage.farewell
                 conversation_active := false
                 messages := s.messages ++
                   [Message.mk "assistant" (env.llm
                      ("Provide brief encouraging feedback on this answer: " ++ i.pyTake 200)
                      SP_evaluate_answer),
                    Message.mk "assistant" (env.llm "Generate farewell message" SP_farewell)] } := by
  unfold stageDispatch
  rw [hs]
  simp only [h5, if_false]
  simp

theorem dispatch_farewell (env : Env) (s : State) (i : String) (hs : s.stage = Stage.farewell) :
    stageDispatch env s i = s := by
  unfold stageDispatch
  rw [hs]

theorem process_exit (env : Env) (s : State) (i : String)
    (h : exit_keywords.any (fun keyword => hasSub keyword i.pyLower.pyStrip) = true) :
    process_user_input env s i = exitFlow env s := by
  simp [process_user_input, h]

theorem process_noexit (env : Env) (s : State) (i : String)
    (h : exit_keywords.any (fun keyword => hasSub keyword i.pyLower.pyStrip) = false) :
    process_user_input env s i = stageDispatch env s i := by
  simp [process_user_input, h]

theorem withGreeting_ne (env : Env) (s : State) (hm : s.messages ≠ []) :
    withGreeting env s = s := by
  simp [withGreeting, hm]

theorem withGreeting_nil (env : Env) (s : State) (hm : s.messages = []) :
    withGreeting env s =
      { s with messages := [Message.mk "assistant" (env.llm "Greet the candidate" SP_greeting)] } := by
  simp [withGreeting, hm]

theorem submit_inactive (env : Env) (s : State) (i : String)
    (ha : s.conversation_active = false) :
    submitFlow env s i = s := by
  simp [submitFlow, ha]

theorem submit_blank (env : Env) (s : State)
    (ha : s.conversation_active = true) :
    submitFlow env s "" = s := by
  simp [submitFlow, ha]

theorem submit_go (env : Env) (s : State) (i : String)
    (ha : s.conversation_active = true) (hi : i ≠ "") :
    submitFlow env s i =
      process_user_input env { s with messages := s.messages ++ [Message.mk "user" i] } i := by
  simp [submitFlow, ha, hi]

end App

namespace Grok

theorem save_eq_okG (env : Env) (s : State) (e0 : env.fsErr = none) :
    save_candidate_data env s =
      ({ s with dirs := if s.dirs.contains "candidate_data" then s.dirs else s.dirs ++ ["candidate_data"]
                savedFiles := s.savedFiles ++
                  [SavedFile.mk ("candidate_data/" ++ sanitizedName s.candidate_data.name ++ "_" ++
                     env.tsFile ++ ".json") s.candidate_data 2] },
       "✅ Data saved: `" ++ ("candidate_data/" ++ sanitizedName s.candidate_data.name ++ "_" ++
         env.tsFile ++ ".json") ++ "`") := by
  simp [save_candidate_data, e0]

theorem save_eq_errG (env : Env) (s : State) (e : String) (e0 : env.fsErr = some e) :
    save_candidate_data env s = (s, "Error saving data: " ++ e) := by
  simp [save_candidate_data, e0]

theorem save_sessionG (env : Env) (s : State) :
    (save_candidate_data env s).1.stage = s.stage ∧
    (save_candidate_data env s).1.candidate_data = s.candidate_data ∧
    (save_candidate_data env s).1.messages = s.messages ∧
    (save_candidate_data env s).1.conversation_active = s.conversation_active ∧
    (save_candidate_data env s).1.tech_questions_asked = s.tech_questions_asked ∧
    (save_candidate_data env s).1.current_field_index = s.current_field_index ∧
    (save_candidate_data env s).1.greeted = s.greeted ∧
    (save_candidate_data env s).1.last_user_message = s.last_user_message ∧
    (save_candidate_data env s).1.notices = s.notices := by
  unfold save_candidate_data
  split <;> exact ⟨rfl, rfl, rfl, rfl, rfl, rfl, rfl, rfl, rfl⟩

theorem ask_lt (env : Env) (b : Bool) (s : State) (h : s.current_field_index < FIELD_ORDER.length) :
    ask_next_info_field env b s =
      { s with messages := s.messages ++
          [Message.mk "assistant" (env.llm
            (if b then
               "Ask for their " ++ FIELD_PROMPTS (FIELD_ORDER.getD s.current_field_index FieldKey.name) ++
               ". One short question."
             else
               "Thank them briefly. Then ask for their " ++
               FIELD_PROMPTS (FIELD_ORDER.getD s.current_field_index FieldKey.name) ++ ". Keep short.")
            SP_collect_info)] } := by
  cases b <;> simp [ask_next_info_field, h]

theorem ask_ge (env : Env) (b : Bool) (s : State)
    (h : ¬ (s.current_field_index < FIELD_ORDER.length)) :
    ask_next_info_field env b s =
      (let tech_stack :=
         match s.candidate_data.tech_stack with
         | some v => if v = "" then "unspecified tech stack" else v
         | none => "unspecified tech stack"
       let q := generate_technical_questions env tech_stack
       { s with stage := Stage.technical_questions
                technical_questions := q
                messages := s.messages ++
                  [Message.mk "assistant"
                     ("Perfect! Now let\x27s assess your **" ++ tech_stack ++
                      "** skills. I\x27ll ask 5 questions."),
                   Message.mk "assistant" q,
                   Message.mk "assistant" "\n**Please answer Question 1:**"] }) := by
  simp [ask_next_info_field, h]

theorem greet_done (env : Env) (s : State) (h : s.greeted = true) :
    handle_greeting_stage env s = s := by
  simp [handle_greeting_stage, h]

theorem greet_new (env : Env) (s : State) (h : s.greeted = false) :
    handle_greeting_stage env s =
      ask_next_info_field env true
        { s with messages := s.messages ++
            [Message.mk "assistant" (env.llm "Greet the candidate for a hiring interview" SP_greeting)]
                 greeted := true
                 stage := Stage.collect_info } := by
  simp [handle_greeting_stage, h]

theorem info_lt (env : Env) (s : State) (i : String)
    (h : s.current_field_index < FIELD_ORDER.length) :
    process_user_input_info env s i =
      ask_next_info_field env false
        { s with candidate_data :=
                   setField s.candidate_data (FIELD_ORDER.getD s.current_field_index FieldKey.name) i.pyStrip
                 current_field_index := s.current_field_index + 1 } := by
  simp [process_user_input_info, h]

theorem info_ge (env : Env) (s : State) (i : String)
    (h : ¬ (s.current_field_index < FIELD_ORDER.length)) :
    process_user_input_info env s i =
      ask_next_info_field env false { s with stage := Stage.technical_questions } := by
  simp [process_user_input_info, h]

theorem tech_continue (env : Env) (s : State) (i : String)
    (h5 : s.tech_questions_asked + 1 < 5) :
    process_user_input_technical env s i =
      { s with candidate_data := { s.candidate_data with technical_answers :=
                 s.candidate_data.technical_answers ++
                   [TechnicalAnswer.mk (s.tech_questions_asked + 1) i env.tsIso] }
               tech_questions_asked := s.tech_questions_asked + 1
               messages := s.messages ++
                 [Message.mk "assistant" (env.llm
                    ("Brief encouraging feedback on the answer: " ++ i.pyTake 200 ++ "...")
                    SP_evaluate_answer),
                  Message.mk "assistant"
                    ("\n**Please answer Question " ++ toString (s.tech_questions_asked + 1 + 1) ++ ":**")] } := by
  unfold process_user_input_technical
  simp only [h5, if_true]
  simp

theorem tech_finish (env : Env) (s : State) (i : String)
    (h5 : ¬ (s.tech_questions_asked + 1 < 5)) :
    process_user_input_technical env s i =
      (let s1 :=
         { s with candidate_data := { s.candidate_data with technical_answers :=
                    s.candidate_data.technical_answers ++
                      [TechnicalAnswer.mk (s.tech_questions_asked + 1) i env.tsIso] }
                  tech_questions_asked := s.tech_questions_asked + 1
                  messages := s.messages ++
                    [Message.mk "assistant" (env.llm
                       ("Brief encouraging feedback on the answer: " ++ i.pyTake 200 ++ "...")
                       SP_evaluate_answer),
                     Message.mk "assistant" (env.llm "Generate farewell" SP_farewell)] }
       let p := save_candidate_data env s1
       { p.1 with messages := p.1.messages ++ [Message.mk "assistant" p.2]
                  conversation_active := false }) := by
  unfold process_user_input_technical
  simp only [h5, if_false]
  simp

theorem exitFlow_eqG (env : Env) (s : State) :
    exitFlow env s =
      (let p := save_candidate_data env s
       { p.1 with messages := p.1.messages ++
           [Message.mk "assistant" (env.llm "Generate farewell" SP_farewell),
            Message.mk "assistant" p.2]
                  conversation_active := false }) := rfl

theorem submit_inactiveG (env : Env) (s : State) (i : String)
    (ha : s.conversation_active = false) :
    submitFlow env s i = s := by
  simp [submitFlow, ha]

theorem submit_blankG (env : Env) (s : State) (i : String)
    (ha : s.conversation_active = true) (hi : i.pyStrip = "") :
    submitFlow env s i = { s with notices := s.notices ++ ["Please type something before sending."] } := by
  simp [submitFlow, ha, hi]

theorem submit_dup (env : Env) (s : State) (i : String)
    (ha : s.conversation_active = true) (hi : i.pyStrip ≠ "")
    (hd : s.last_user_message = some i.pyStrip) :
    submitFlow env s i = { s with notices := s.notices ++ ["Duplicate message detected — ignored."] } := by
  simp [submitFlow, ha, hi, hd]

theorem submit_exit (env : Env) (s : State) (i : String)
    (ha : s.conversation_active = true) (hi : i.pyStrip ≠ "")
    (hd : s.last_user_message ≠ some i.pyStrip)
    (hx : exit_keywords.any (fun word => hasSub word i.pyStrip.pyLower) = true) :
    submitFlow env s i =
      exitFlow env
        { s with last_user_message := some i.pyStrip
                 messages := s.messages ++ [Message.mk "user" i.pyStrip] } := by
  simp [submitFlow, ha, hi, hd, hx]

theorem submit_route (env : Env) (s : State) (i : String)
    (ha : s.conversation_active = true) (hi : i.pyStrip ≠ "")
    (hd : s.last_user_message ≠ some i.pyStrip)
    (hx : exit_keywords.any (fun word => hasSub word i.pyStrip.pyLower) = false) :
    submitFlow env s i =
      (let s2 := { s with last_user_message := some i.pyStrip
                          messages := s.messages ++ [Message.mk "user" i.pyStrip] }
       match s.stage with
       | Stage.collect_info => process_user_input_info env s2 i.pyStrip
       | Stage.technical_questions => process_user_input_technical env s2 i.pyStrip
       | _ => { s2 with
                messages := s2.messages ++
                  [Message.mk "assistant" "I\x27m not sure what to do next. Restarting interview."]
                conversation_active := false }) := by
  simp [submitFlow, ha, hi, hd, hx]

theorem submit_collect (env : Env) (s : State) (i : String)
    (ha : s.conversation_active = true) (hi : i.pyStrip ≠ "")
    (hd : s.last_user_message ≠ some i.pyStrip)
    (hx : exit_keywords.any (fun word => hasSub word i.pyStrip.pyLower) = false)
    (hs : s.stage = Stage.collect_info) :
    submitFlow env s i =
      process_user_input_info env
        { s with last_user_message := some i.pyStrip
                 messages := s.messages ++ [Message.mk "user" i.pyStrip] } i.pyStrip := by
  simp [submitFlow, ha, hi, hd, hx, hs]

theorem submit_tech (env : Env) (s : State) (i : String)
    (ha : s.conversation_active = true) (hi : i.pyStrip ≠ "")
    (hd : s.last_user_message ≠ some i.pyStrip)
    (hx : exit_keywords.any (fun word => hasSub word i.pyStrip.pyLower) = false)
    (hs : s.stage = Stage.technical_questions) :
    submitFlow env s i =
      process_user_input_technical env
        { s with last_user_message := some i.pyStrip
                 messages := s.messages ++ [Message.mk "user" i.pyStrip] } i.pyStrip := by
  simp [submitFlow, ha, hi, hd, hx, hs]

theorem submit_other (env : Env) (s : State) (i : String)
    (ha : s.conversation_active = true) (hi : i.pyStrip ≠ "")
    (hd : s.last_user_message ≠ some i.pyStrip)
    (hx : exit_keywords.any (fun word => hasSub word i.pyStrip.pyLower) = false)
    (h1 : s.stage ≠ Stage.collect_info) (h2 : s.stage ≠ Stage.technical_questions) :
    submitFlow env s i =
      { s with last_user_message := some i.pyStrip
               messages := (s.messages ++ [Message.mk "user" i.pyStrip]) ++
                 [Message.mk "assistant" "I\x27m not sure what to do next. Restarting interview."]
               conversation_active := false } := by
  cases hs : s.stage
  · simp [submitFlow, ha, hi, hd, hx, hs]
  · exact absurd hs h1
  · exact absurd hs h2
  · simp [submitFlow, ha, hi, hd, hx, hs]

theorem turn_greet (env : Env) (s : State) (i : String) (hs : s.stage = Stage.greeting) :
    turn env s i = submitFlow env (handle_greeting_stage env s) i := by
  simp [turn, hs]

theorem turn_nogreet (env : Env) (s : State) (i : String) (hs : s.stage ≠ Stage.greeting) :
    turn env s i = submitFlow env s i := by
  simp [turn, hs]

end Grok

theorem infoFields_answers (d : CandidateData) (x : List TechnicalAnswer) :
    infoFields { d with technical_answers := x } = infoFields d := rfl

namespace App

theorem withGreeting_session (env : Env) (s : State) :
    (withGreeting env s).stage = s.stage ∧
    (withGreeting env s).candidate_data = s.candidate_data ∧
    (withGreeting env s).conversation_active = s.conversation_active ∧
    (withGreeting env s).tech_questions_asked = s.tech_questions_asked ∧
    (withGreeting env s).savedFiles = s.savedFiles := by
  unfold withGreeting
  split <;> exact ⟨rfl, rfl, rfl, rfl, rfl⟩

theorem exitFlow_stage (env : Env) (s : State) :
    (exitFlow env s).stage = Stage.farewell := by
  rw [exitFlow_eq]
  exact (save_session env _).1

theorem exitFlow_cd (env : Env) (s : State) :
    (exitFlow env s).candidate_data = s.candidate_data := by
  rw [exitFlow_eq]
  exact (save_session env _).2.1

theorem exitFlow_active (env : Env) (s : State) :
    (exitFlow env s).conversation_active = false := by
  rw [exitFlow_eq]
  exact (save_session env _).2.2.2.1

theorem dispatch_mono (env : Env) (s : State) (i : String) :
    stageRank s.stage ≤ stageRank (stageDispatch env s i).stage := by
  cases hs : s.stage
  case greeting =>
    rw [dispatch_greeting env s i hs]
    simp [stageRank]
  case collect_info =>
    cases hf : get_missing_info s.candidate_data
    case none =>
      rw [dispatch_collect_none env s i hs hf, hs]
    case some f =>
      cases hg : get_missing_info (setField s.candidate_data f (extract_info_from_response i f))
      case none =>
        rw [dispatch_collect_done env s i f hs hf hg]
        simp [stageRank]
      case some g =>
        rw [dispatch_collect_more env s i f g hs hf hg]
        simp [stageRank, hs]
  case technical_questions =>
    by_cases h5 : s.tech_questions_asked + 1 < 5
    · rw [dispatch_tech_continue env s i hs h5]
      simp [stageRank, hs]
    · rw [dispatch_tech_finish env s i hs h5, (save_session env _).1]
      simp [stageRank]
  case farewell =>
    rw [dispatch_farewell env s i hs, hs]

theorem process_mono (env : Env) (s : State) (i : String) :
    stageRank s.stage ≤ stageRank (process_user_input env s i).stage := by
  by_cases hx : exit_keywords.any (fun keyword => hasSub keyword i.pyLower.pyStrip) = true
  · rw [process_exit env s i hx, exitFlow_stage]
    cases s.stage <;> simp [stageRank]
  · rw [process_noexit env s i (by simpa using hx)]
    exact dispatch_mono env s i

theorem turn_mono (env : Env) (s : State) (i : String) :
    stageRank s.stage ≤ stageRank (turn env s i).stage := by
  unfold turn
  rw [← (withGreeting_session env s).1]
  generalize withGreeting env s = u
  unfold submitFlow
  cases hu : u.conversation_active
  case false =>
    rw [if_pos rfl]
  case true =>
    rw [if_neg (by decide)]
    by_cases hi : i = ""
    · rw [if_pos hi]
    · rw [if_neg hi]
      exact process_mono env
        { u with messages := u.messages ++ [Message.mk "user" i], conversation_active := true } i

end App

namespace Grok

theorem exitFlow_stageG (env : Env) (s : State) :
    (exitFlow env s).stage = s.stage := by
  rw [exitFlow_eqG]
  exact (save_sessionG env s).1

theorem exitFlow_cdG (env : Env) (s : State) :
    (exitFlow env s).candidate_data = s.candidate_data := by
  rw [exitFlow_eqG]
  exact (save_sessionG env s).2.1

theorem exitFlow_activeG (env : Env) (s : State) :
    (exitFlow env s).conversation_active = false := rfl

theorem ask_stage (env : Env) (b : Bool) (s : State) :
    (ask_next_info_field env b s).stage = s.stage ∨
    (ask_next_info_field env b s).stage = Stage.technical_questions := by
  by_cases h : s.current_field_index < FIELD_ORDER.length
  · rw [ask_lt env b s h]
    left
    rfl
  · rw [ask_ge env b s h]
    right
    rfl

theorem ask_cd (env : Env) (b : Bool) (s : State) :
    (ask_next_info_field env b s).candidate_data = s.candidate_data := by
  by_cases h : s.current_field_index < FIELD_ORDER.length
  · rw [ask_lt env b s h]
  · rw [ask_ge env b s h]

theorem info_stage (env : Env) (s : State) (i : String) :
    (process_user_input_info env s i).stage = s.stage ∨
    (process_user_input_info env s i).stage = Stage.technical_questions := by
  by_cases h : s.current_field_index < FIELD_ORDER.length
  · rw [info_lt env s i h]
    exact ask_stage env false _
  · rw [info_ge env s i h]
    rcases ask_stage env false { s with stage := Stage.technical_questions } with h2 | h2
    · right
      rw [h2]
    · right
      exact h2

theorem tech_stage (env : Env) (s : State) (i : String) :
    (process_user_input_technical env s i).stage = s.stage := by
  by_cases h5 : s.tech_questions_asked + 1 < 5
  · rw [tech_continue env s i h5]
  · rw [tech_finish env s i h5]
    exact (save_sessionG env _).1

theorem tech_info_frame (env : Env) (s : State) (i : String) :
    infoFields (process_user_input_technical env s i).candidate_data =
      infoFields s.candidate_data := by
  by_cases h5 : s.tech_questions_asked + 1 < 5
  · rw [tech_continue env s i h5]
    rfl
  · rw [tech_finish env s i h5]
    show infoFields (save_candidate_data env _).1.candidate_data = _
    rw [(save_sessionG env _).2.1]
    rfl

theorem submit_mono (env : Env) (s : State) (i : String) :
    stageRank s.stage ≤ stageRank (submitFlow env s i).stage := by
  cases hu : s.conversation_active
  case false =>
    rw [submit_inactiveG env s i hu]
  case true =>
    by_cases hi : i.pyStrip = ""
    · rw [submit_blankG env s i hu hi]
    · by_cases hd : s.last_user_message = some i.pyStrip
      · rw [submit_dup env s i hu hi hd]
      · by_cases hx : exit_keywords.any (fun word => hasSub word i.pyStrip.pyLower) = true
        · rw [submit_exit env s i hu hi hd hx, exitFlow_stageG]
        · have hx2 : (exit_keywords.any fun word => hasSub word i.pyStrip.pyLower) = false := by
            simpa using hx
          cases hs : s.stage
          · exact Nat.zero_le _
          · rw [submit_collect env s i hu hi hd hx2 hs]
            rcases info_stage env
                { s with last_user_message := some i.pyStrip
                         messages := s.messages ++ [Message.mk "user" i.pyStrip] } i.pyStrip with h2 | h2
            · rw [h2]
              simp [stageRank, hs]
            · rw [h2]
              simp [stageRank]
          · rw [submit_tech env s i hu hi hd hx2 hs]
            rw [tech_stage env _ i.pyStrip]
            simp [stageRank, hs]
          · rw [submit_other env s i hu hi hd hx2 (by rw [hs]; simp) (by rw [hs]; simp)]
            simp [stageRank, hs]

theorem turn_monoG (env : Env) (s : State) (i : String) :
    stageRank s.stage ≤ stageRank (turn env s i).stage := by
  by_cases hs : s.stage = Stage.greeting
  · rw [hs]
    exact Nat.zero_le _
  · rw [turn_nogreet env s i hs]
    exact submit_mono env s i

theorem submit_frame (env : Env) (s : State) (i : String)
    (hs : s.stage = Stage.technical_questions ∨ s.stage = Stage.farewell) :
    infoFields (submitFlow env s i).candidate_data = infoFields s.candidate_data := by
  cases hu : s.conversation_active
  case false =>
    rw [submit_inactiveG env s i hu]
  case true =>
    by_cases hi : i.pyStrip = ""
    · rw [submit_blankG env s i hu hi]
    · by_cases hd : s.last_user_message = some i.pyStrip
      · rw [submit_dup env s i hu hi hd]
      · by_cases hx : exit_keywords.any (fun word => hasSub word i.pyStrip.pyLower) = true
        · rw [submit_exit env s i hu hi hd hx, exitFlow_cdG]
        · have hx2 : (exit_keywords.any fun word => hasSub word i.pyStrip.pyLower) = false := by
            simpa using hx
          rcases hs with hs | hs
          · rw [submit_tech env s i hu hi hd hx2 hs]
            exact tech_info_frame env _ i.pyStrip
          · rw [submit_other env s i hu hi hd hx2 (by rw [hs]; simp) (by rw [hs]; simp)]

theorem turn_frameG (env : Env) (s : State) (i : String)
    (hs : s.stage = Stage.technical_questions ∨ s.stage = Stage.farewell) :
    infoFields (turn env s i).candidate_data = infoFields s.candidate_data := by
  have hg : s.stage ≠ Stage.greeting := by
    rcases hs with hs | hs <;> rw [hs] <;> simp
  rw [turn_nogreet env s i hg]
  exact submit_frame env s i hs

end Grok

namespace App

theorem process_frame (env : Env) (s : State) (i : String)
    (hs : s.stage = Stage.technical_questions ∨ s.stage = Stage.farewell) :
    infoFields (process_user_input env s i).candidate_data = infoFields s.candidate_data := by
  by_cases hx : exit_keywords.any (fun keyword => hasSub keyword i.pyLower.pyStrip) = true
  · rw [process_exit env s i hx, exitFlow_cd]
  · rw [process_noexit env s i (by simpa using hx)]
    rcases hs with hs | hs
    · by_cases h5 : s.tech_questions_asked + 1 < 5
      · rw [dispatch_tech_continue env s i hs h5]
        rfl
      · rw [dispatch_tech_finish env s i hs h5, (save_session env _).2.1]
        rfl
    · rw [dispatch_farewell env s i hs]

theorem turn_frame (env : Env) (s : State) (i : String)
    (hs : s.stage = Stage.technical_questions ∨ s.stage = Stage.farewell) :
    infoFields (turn env s i).candidate_data = infoFields s.candidate_data := by
  unfold turn
  have h1 := withGreeting_session env s
  rw [← h1.2.1]
  unfold submitFlow
  cases hu : (withGreeting env s).conversation_active
  case false =>
    rw [if_pos rfl]
  case true =>
    rw [if_neg (by decide)]
    by_cases hi : i = ""
    · rw [if_pos hi]
    · rw [if_neg hi]
      exact process_frame env
        { withGreeting env s with
          messages := (withGreeting env s).messages ++ [Message.mk "user" i]
          conversation_active := true } i
        (by
          show (withGreeting env s).stage = Stage.technical_questions ∨
               (withGreeting env s).stage = Stage.farewell
          rw [h1.1]
          exact hs)

end App

/-- A concrete app.py state in the technical-questions stage, used by
witnesses. -/
def appTechState : App.State :=
  { messages := [Message.mk "assistant" "hi"]
    candidate_data := { emptyData with name := some "Ada Lovelace", tech_stack := some "Python" }
    stage := Stage.technical_questions
    tech_questions_asked := 0
    conversation_active := true
    technical_questions := "qs"
    savedFiles := []
    notices := [] }

/-- A concrete app_grok.py state in the technical-questions stage, used by
witnesses. -/
def grokTechState : Grok.State :=
  { messages := [Message.mk "assistant" "hi"]
    candidate_data := { emptyData with name := some "Ada Lovelace", tech_stack := some "Python" }
    current_field_index := 7
    tech_questions_asked := 0
    conversation_active := true
    technical_questions := "qs"
    stage := Stage.technical_questions
    greeted := true
    last_user_message := none
    dirs := []
    savedFiles := []
    notices := [] }

/-- C1: in both implementations, one processed submission never decreases
the stage along the order greeting < collect_info < technical_questions <
farewell (so the stage sequence of any session is monotone, with no
back-transitions), and once the stage is technical_questions or later, no
user input changes any of the seven candidate information fields. -/
theorem C1_stage_monotone_and_fields_frozen :
    ∀ (env : Env) (s : App.State) (t : Grok.State) (i : String),
      stageRank s.stage ≤ stageRank (App.turn env s i).stage ∧
      stageRank t.stage ≤ stageRank (Grok.turn env t i).stage ∧
      (s.stage = Stage.technical_questions ∨ s.stage = Stage.farewell →
        infoFields (App.turn env s i).candidate_data = infoFields s.candidate_data) ∧
      (t.stage = Stage.technical_questions ∨ t.stage = Stage.farewell →
        infoFields (Grok.turn env t i).candidate_data = infoFields t.candidate_data) :=
  fun env s t i =>
    ⟨App.turn_mono env s i, Grok.turn_monoG env t i,
     App.turn_frame env s i, Grok.turn_frameG env t i⟩

/-- Witness for C1 at a concrete technical-questions state. -/
theorem C1_witness :
    stageRank appTechState.stage ≤ stageRank (App.turn envC appTechState "my answer").stage ∧
    stageRank grokTechState.stage ≤ stageRank (Grok.turn envC grokTechState "my answer").stage ∧
    infoFields (App.turn envC appTechState "my answer").candidate_data =
      infoFields appTechState.candidate_data ∧
    infoFields (Grok.turn envC grokTechState "my answer").candidate_data =
      infoFields grokTechState.candidate_data :=
  ⟨(C1_stage_monotone_and_fields_frozen envC appTechState grokTechState "my answer").1,
   (C1_stage_monotone_and_fields_frozen envC appTechState grokTechState "my answer").2.1,
   (C1_stage_monotone_and_fields_frozen envC appTechState grokTechState "my answer").2.2.1 (Or.inl rfl),
   (C1_stage_monotone_and_fields_frozen envC appTechState grokTechState "my answer").2.2.2 (Or.inl rfl)⟩

namespace App

/-- The technical-answer bookkeeping invariant of app.py: the counter
matches the number of stored answers, question numbers are 1..n in
order, the counter never exceeds 5, and a full counter implies the
conversation has been deactivated. -/
def TechInv (s : State) : Prop :=
  s.tech_questions_asked = s.candidate_data.technical_answers.length ∧
  s.candidate_data.technical_answers.map TechnicalAnswer.question_number =
    (List.range s.tech_questions_asked).map (· + 1) ∧
  s.tech_questions_asked ≤ 5 ∧
  (s.tech_questions_asked = 5 → s.conversation_active = false)

theorem exitFlow_asked (env : Env) (s : State) :
    (exitFlow env s).tech_questions_asked = s.tech_questions_asked := by
  rw [exitFlow_eq]
  exact (save_session env _).2.2.2.2

theorem process_inv (env : Env) (s : State) (i : String)
    (h : TechInv s) (ha : s.conversation_active = true) : TechInv (process_user_input env s i) := by
  obtain ⟨h1, h2, h3, h4⟩ := h
  have h5ne : s.tech_questions_asked ≠ 5 := by
    intro hc
    rw [h4 hc] at ha
    cases ha
  by_cases hx : exit_keywords.any (fun keyword => hasSub keyword i.pyLower.pyStrip) = true
  · rw [process_exit env s i hx]
    refine ⟨?_, ?_, ?_, ?_⟩
    · rw [exitFlow_asked, exitFlow_cd, h1]
    · rw [exitFlow_asked, exitFlow_cd]
      exact h2
    · rw [exitFlow_asked]
      exact h3
    · intro _
      exact exitFlow_active env s
  · rw [process_noexit env s i (by simpa using hx)]
    cases hs : s.stage
    · rw [dispatch_greeting env s i hs]
      exact ⟨h1, h2, h3, fun hc => absurd hc h5ne⟩
    · cases hf : get_missing_info s.candidate_data
      · rw [dispatch_collect_none env s i hs hf]
        exact ⟨h1, h2, h3, h4⟩
      · rename_i f
        cases hg : get_missing_info (setField s.candidate_data f (extract_info_from_response i f))
        · rw [dispatch_collect_done env s i f hs hf hg]
          refine ⟨?_, ?_, h3, fun hc => absurd hc h5ne⟩
          · show s.tech_questions_asked = (setField _ f _).technical_answers.length
            rw [setField_answers]
            exact h1
          · show (setField _ f _).technical_answers.map _ = _
            rw [setField_answers]
            exact h2
        · rename_i g
          rw [dispatch_collect_more env s i f g hs hf hg]
          refine ⟨?_, ?_, h3, fun hc => absurd hc h5ne⟩
          · show s.tech_questions_asked = (setField _ f _).technical_answers.length
            rw [setField_answers]
            exact h1
          · show (setField _ f _).technical_answers.map _ = _
            rw [setField_answers]
            exact h2
    · have hlen : (s.candidate_data.technical_answers ++
          [TechnicalAnswer.mk (s.tech_questions_asked + 1) i env.tsIso]).length =
          s.tech_questions_asked + 1 := by
        rw [List.length_append, ← h1]
        rfl
      have hmap : (s.candidate_data.technical_answers ++
          [TechnicalAnswer.mk (s.tech_questions_asked + 1) i env.tsIso]).map
            TechnicalAnswer.question_number =
          (List.range (s.tech_questions_asked + 1)).map (· + 1) := by
        rw [List.map_append, h2, List.range_succ, List.map_append]
        rfl
      have hle : s.tech_questions_asked + 1 ≤ 5 := by omega
      by_cases h5 : s.tech_questions_asked + 1 < 5
      · rw [dispatch_tech_continue env s i hs h5]
        exact ⟨hlen.symm, hmap, hle,
          fun hc => absurd hc (show s.tech_questions_asked + 1 = 5 → False by omega)⟩
      · rw [dispatch_tech_finish env s i hs h5]
        refine ⟨?_, ?_, ?_, ?_⟩
        · rw [(save_session env _).2.2.2.2, (save_session env _).2.1]
          exact hlen.symm
        · rw [(save_session env _).2.2.2.2, (save_session env _).2.1]
          exact hmap
        · rw [(save_session env _).2.2.2.2]
          exact hle
        · intro _
          rw [(save_session env _).2.2.2.1]
    · rw [dispatch_farewell env s i hs]
      exact ⟨h1, h2, h3, h4⟩

theorem turn_inv (env : Env) (s : State) (i : String) (h : TechInv s) :
    TechInv (turn env s i) := by
  unfold turn
  have hg := withGreeting_session env s
  have h' : TechInv (withGreeting env s) := by
    unfold TechInv
    rw [hg.2.1, hg.2.2.1, hg.2.2.2.1]
    exact h
  generalize hu0 : withGreeting env s = u at h'
  unfold submitFlow
  cases hu : u.conversation_active
  case false =>
    rw [if_pos rfl]
    exact h'
  case true =>
    rw [if_neg (by decide)]
    by_cases hi : i = ""
    · rw [if_pos hi]
      exact h'
    · rw [if_neg hi]
      refine process_inv env _ i ?_ rfl
      unfold TechInv at h' ⊢
      rw [hu] at h'
      exact h'

theorem run_inv : ∀ ts : List (Env × String), TechInv (run ts) := by
  have key : ∀ (ts : List (Env × String)) (s : State), TechInv s →
      TechInv (ts.foldl (fun s t => turn t.1 s t.2) s) := by
    intro ts
    induction ts with
    | nil => intro s h; exact h
    | cons t ts ih =>
        intro s h
        exact ih _ (turn_inv t.1 s t.2 h)
  intro ts
  exact key ts init ⟨rfl, rfl, by decide, by decide⟩

end App

namespace Grok

/-- The technical-answer bookkeeping invariant of app_grok.py (same
shape as the app.py one). -/
def TechInv (s : State) : Prop :=
  s.tech_questions_asked = s.candidate_data.technical_answers.length ∧
  s.candidate_data.technical_answers.map TechnicalAnswer.question_number =
    (List.range s.tech_questions_asked).map (· + 1) ∧
  s.tech_questions_asked ≤ 5 ∧
  (s.tech_questions_asked = 5 → s.conversation_active = false)

theorem techInv_transport (s t : State)
    (hta : t.candidate_data.technical_answers = s.candidate_data.technical_answers)
    (ha : t.tech_questions_asked = s.tech_questions_asked)
    (hc : t.conversation_active = s.conversation_active)
    (h : TechInv s) : TechInv t := by
  unfold TechInv at h ⊢
  rw [hta, ha, hc]
  exact h

theorem ask_session (env : Env) (b : Bool) (s : State) :
    (ask_next_info_field env b s).candidate_data = s.candidate_data ∧
    (ask_next_info_field env b s).current_field_index = s.current_field_index ∧
    (ask_next_info_field env b s).tech_questions_asked = s.tech_questions_asked ∧
    (ask_next_info_field env b s).conversation_active = s.conversation_active ∧
    (ask_next_info_field env b s).greeted = s.greeted ∧
    (ask_next_info_field env b s).last_user_message = s.last_user_message ∧
    (ask_next_info_field env b s).savedFiles = s.savedFiles := by
  by_cases h : s.current_field_index < FIELD_ORDER.length
  · rw [ask_lt env b s h]
    exact ⟨rfl, rfl, rfl, rfl, rfl, rfl, rfl⟩
  · rw [ask_ge env b s h]
    exact ⟨rfl, rfl, rfl, rfl, rfl, rfl, rfl⟩

theorem exitFlow_askedG (env : Env) (s : State) :
    (exitFlow env s).tech_questions_asked = s.tech_questions_asked := by
  rw [exitFlow_eqG]
  exact (save_sessionG env s).2.2.2.2.1

theorem ask_inv (env : Env) (b : Bool) (s : State) (h : TechInv s) :
    TechInv (ask_next_info_field env b s) :=
  techInv_transport s _ (by rw [(ask_session env b s).1]) (ask_session env b s).2.2.1
    (ask_session env b s).2.2.2.1 h

theorem info_inv (env : Env) (s : State) (i : String) (h : TechInv s) :
    TechInv (process_user_input_info env s i) := by
  by_cases hidx : s.current_field_index < FIELD_ORDER.length
  · rw [info_lt env s i hidx]
    refine ask_inv env false _ ?_
    exact techInv_transport s _ (setField_answers _ _ _) rfl rfl h
  · rw [info_ge env s i hidx]
    exact ask_inv env false _ (techInv_transport s _ rfl rfl rfl h)

theorem tech_inv (env : Env) (s : State) (i : String) (h : TechInv s)
    (ha : s.conversation_active = true) :
    TechInv (process_user_input_technical env s i) := by
  obtain ⟨h1, h2, h3, h4⟩ := h
  have h5ne : s.tech_questions_asked ≠ 5 := by
    intro hc
    rw [h4 hc] at ha
    cases ha
  have hlen : (s.candidate_data.technical_answers ++
      [TechnicalAnswer.mk (s.tech_questions_asked + 1) i env.tsIso]).length =
      s.tech_questions_asked + 1 := by
    rw [List.length_append, ← h1]
    rfl
  have hmap : (s.candidate_data.technical_answers ++
      [TechnicalAnswer.mk (s.tech_questions_asked + 1) i env.tsIso]).map
        TechnicalAnswer.question_number =
      (List.range (s.tech_questions_asked + 1)).map (· + 1) := by
    rw [List.map_append, h2, List.range_succ, List.map_append]
    rfl
  have hle : s.tech_questions_asked + 1 ≤ 5 := by omega
  by_cases h5 : s.tech_questions_asked + 1 < 5
  · rw [tech_continue env s i h5]
    exact ⟨hlen.symm, hmap, hle,
      fun hc => absurd hc (show s.tech_questions_asked + 1 = 5 → False by omega)⟩
  · rw [tech_finish env s i h5]
    refine ⟨?_, ?_, ?_, ?_⟩
    · rw [(save_sessionG env _).2.2.2.2.1, (save_sessionG env _).2.1]
      exact hlen.symm
    · rw [(save_sessionG env _).2.2.2.2.1, (save_sessionG env _).2.1]
      exact hmap
    · rw [(save_sessionG env _).2.2.2.2.1]
      exact hle
    · intro _
      rfl

theorem exitFlow_inv (env : Env) (s : State) (h : TechInv s) : TechInv (exitFlow env s) := by
  obtain ⟨h1, h2, h3, _⟩ := h
  refine ⟨?_, ?_, ?_, ?_⟩
  · rw [exitFlow_askedG, exitFlow_cdG, h1]
  · rw [exitFlow_askedG, exitFlow_cdG]
    exact h2
  · rw [exitFlow_askedG]
    exact h3
  · intro _
    exact exitFlow_activeG env s

theorem submit_inv (env : Env) (s : State) (i : String) (h : TechInv s) :
    TechInv (submitFlow env s i) := by
  cases hu : s.conversation_active
  case false =>
    rw [submit_inactiveG env s i hu]
    exact h
  case true =>
    by_cases hi : i.pyStrip = ""
    · rw [submit_blankG env s i hu hi]
      exact techInv_transport s _ rfl rfl rfl h
    · by_cases hd : s.last_user_message = some i.pyStrip
      · rw [submit_dup env s i hu hi hd]
        exact techInv_transport s _ rfl rfl rfl h
      · have h2 : TechInv
            { s with last_user_message := some i.pyStrip
                     messages := s.messages ++ [Message.mk "user" i.pyStrip] } :=
          techInv_transport s _ rfl rfl rfl h
        by_cases hx : exit_keywords.any (fun word => hasSub word i.pyStrip.pyLower) = true
        · rw [submit_exit env s i hu hi hd hx]
          exact exitFlow_inv env _ h2
        · have hx2 : (exit_keywords.any fun word => hasSub word i.pyStrip.pyLower) = false := by
            simpa using hx
          cases hs : s.stage
          · rw [submit_other env s i hu hi hd hx2 (by rw [hs]; simp) (by rw [hs]; simp)]
            obtain ⟨g1, g2, g3, _⟩ := h
            exact ⟨g1, g2, g3, fun _ => rfl⟩
          · rw [submit_collect env s i hu hi hd hx2 hs]
            exact info_inv env _ i.pyStrip h2
          · rw [submit_tech env s i hu hi hd hx2 hs]
            exact tech_inv env _ i.pyStrip h2 hu
          · rw [submit_other env s i hu hi hd hx2 (by rw [hs]; simp) (by rw [hs]; simp)]
            obtain ⟨g1, g2, g3, _⟩ := h
            exact ⟨g1, g2, g3, fun _ => rfl⟩

theorem handle_inv (env : Env) (s : State) (h : TechInv s) :
    TechInv (handle_greeting_stage env s) := by
  cases hg : s.greeted
  · rw [greet_new env s hg]
    exact ask_inv env true _ (techInv_transport s _ rfl rfl rfl h)
  · rw [greet_done env s hg]
    exact h

theorem turn_invG (env : Env) (s : State) (i : String) (h : TechInv s) :
    TechInv (turn env s i) := by
  by_cases hs : s.stage = Stage.greeting
  · rw [turn_greet env s i hs]
    exact submit_inv env _ i (handle_inv env s h)
  · rw [turn_nogreet env s i hs]
    exact submit_inv env s i h

theorem run_invG : ∀ ts : List (Env × String), TechInv (run ts) := by
  have key : ∀ (ts : List (Env × String)) (s : State), TechInv s →
      TechInv (ts.foldl (fun s t => turn t.1 s t.2) s) := by
    intro ts
    induction ts with
    | nil => intro s h; exact h
    | cons t ts ih =>
        intro s h
        exact ih _ (turn_invG t.1 s t.2 h)
  intro ts
  exact key ts init ⟨rfl, rfl, by decide, by decide⟩

end Grok

/-- C2: at every reachable point of every session, in both
implementations, the technical-questions-asked counter equals the length
of the stored technical_answers list, the stored question_number fields
are exactly 1, 2, ..., n in order of appending, and the counter never
exceeds 5. -/
theorem C2_counter_matches_answers_and_numbering :
    ∀ ts : List (Env × String),
      ((App.run ts).tech_questions_asked =
         (App.run ts).candidate_data.technical_answers.length ∧
       (App.run ts).candidate_data.technical_answers.map TechnicalAnswer.question_number =
         (List.range (App.run ts).tech_questions_asked).map (· + 1) ∧
       (App.run ts).tech_questions_asked ≤ 5) ∧
      ((Grok.run ts).tech_questions_asked =
         (Grok.run ts).candidate_data.technical_answers.length ∧
       (Grok.run ts).candidate_data.technical_answers.map TechnicalAnswer.question_number =
         (List.range (Grok.run ts).tech_questions_asked).map (· + 1) ∧
       (Grok.run ts).tech_questions_asked ≤ 5) :=
  fun ts =>
    ⟨⟨(App.run_inv ts).1, (App.run_inv ts).2.1, (App.run_inv ts).2.2.1⟩,
     ⟨(Grok.run_invG ts).1, (Grok.run_invG ts).2.1, (Grok.run_invG ts).2.2.1⟩⟩

/-- The setness mask of the seven info fields, in declared order. -/
def fieldMask (d : CandidateData) : List Bool :=
  FIELD_ORDER.map (fun f => (getField d f).isSome)

/-- No `true` occurs after a `false`: the set fields form a prefix of the
declared order. -/
def noGapFill : List Bool → Bool
  | [] => true
  | true :: rest => noGapFill rest
  | false :: rest => rest.all (fun b => b == false)

/-- Reading an info field ignores the technical answers. -/
theorem getField_answers (d : CandidateData) (x : List TechnicalAnswer) (f : FieldKey) :
    getField { d with technical_answers := x } f = getField d f := by
  cases f <;> rfl

/-- Indexing into FIELD_ORDER is injective below its length. -/
theorem fieldOrder_inj_fin : ∀ k j : Fin 7,
    FIELD_ORDER.getD k.val FieldKey.name = FIELD_ORDER.getD j.val FieldKey.name → k = j := by
  decide

theorem fieldOrder_inj (k j : Nat) (hk : k < 7) (hj : j < 7)
    (h : FIELD_ORDER.getD k FieldKey.name = FIELD_ORDER.getD j FieldKey.name) : k = j := by
  have h2 := fieldOrder_inj_fin ⟨k, hk⟩ ⟨j, hj⟩ h
  exact congrArg Fin.val h2

namespace App

/-- The field returned by get_missing_info is unset. -/
theorem missing_none (d : CandidateData) (f : FieldKey)
    (h : get_missing_info d = some f) : getField d f = none := by
  unfold get_missing_info at h
  have h2 := List.find?_some h
  exact Option.isNone_iff_eq_none.mp (by simpa using h2)

/-- Writing the first unset field keeps the set fields a prefix of the
declared order. -/
theorem setMissing_order (d : CandidateData) (f : FieldKey) (v : String)
    (hf : get_missing_info d = some f) (h : noGapFill (fieldMask d) = true) :
    noGapFill (fieldMask (setField d f v)) = true := by
  obtain ⟨n, e, p, x, po, l, t, ta⟩ := d
  cases n <;> cases e <;> cases p <;> cases x <;> cases po <;> cases l <;> cases t <;>
      simp_all [get_missing_info, FIELD_ORDER, List.find?, getField, Option.isNone] <;>
    subst hf <;>
    simp_all [getField, setField, fieldMask, noGapFill, FIELD_ORDER]

end App

theorem fieldMask_answers (d : CandidateData) (x : List TechnicalAnswer) :
    fieldMask { d with technical_answers := x } = fieldMask d := by
  simp [fieldMask, getField_answers]

namespace App

theorem process_order (env : Env) (s : State) (i : String)
    (h : noGapFill (fieldMask s.candidate_data) = true) :
    noGapFill (fieldMask (process_user_input env s i).candidate_data) = true := by
  by_cases hx : exit_keywords.any (fun keyword => hasSub keyword i.pyLower.pyStrip) = true
  · rw [process_exit env s i hx, exitFlow_cd]
    exact h
  · rw [process_noexit env s i (by simpa using hx)]
    cases hs : s.stage
    · rw [dispatch_greeting env s i hs]
      exact h
    · cases hf : get_missing_info s.candidate_data
      · rw [dispatch_collect_none env s i hs hf]
        exact h
      · rename_i f
        cases hg : get_missing_info (setField s.candidate_data f (extract_info_from_response i f))
        · rw [dispatch_collect_done env s i f hs hf hg]
          exact setMissing_order s.candidate_data f _ hf h
        · rename_i g
          rw [dispatch_collect_more env s i f g hs hf hg]
          exact setMissing_order s.candidate_data f _ hf h
    · by_cases h5 : s.tech_questions_asked + 1 < 5
      · rw [dispatch_tech_continue env s i hs h5]
        show noGapFill (fieldMask { s.candidate_data with technical_answers := _ }) = true
        rw [fieldMask_answers]
        exact h
      · rw [dispatch_tech_finish env s i hs h5, (save_session env _).2.1]
        show noGapFill (fieldMask { s.candidate_data with technical_answers := _ }) = true
        rw [fieldMask_answers]
        exact h
    · rw [dispatch_farewell env s i hs]
      exact h

theorem turn_order (env : Env) (s : State) (i : String)
    (h : noGapFill (fieldMask s.candidate_data) = true) :
    noGapFill (fieldMask (turn env s i).candidate_data) = true := by
  unfold turn
  have hw := withGreeting_session env s
  have h' : noGapFill (fieldMask (withGreeting env s).candidate_data) = true := by
    rw [hw.2.1]
    exact h
  generalize withGreeting env s = u at h'
  unfold submitFlow
  cases hu : u.conversation_active
  case false =>
    rw [if_pos rfl]
    exact h'
  case true =>
    rw [if_neg (by decide)]
    by_cases hi : i = ""
    · rw [if_pos hi]
      exact h'
    · rw [if_neg hi]
      exact process_order env _ i h'

theorem process_persist (env : Env) (s : State) (i : String) (f : FieldKey) (v : String)
    (h : getField s.candidate_data f = some v) :
    getField (process_user_input env s i).candidate_data f = some v := by
  by_cases hx : exit_keywords.any (fun keyword => hasSub keyword i.pyLower.pyStrip) = true
  · rw [process_exit env s i hx, exitFlow_cd]
    exact h
  · rw [process_noexit env s i (by simpa using hx)]
    cases hs : s.stage
    · rw [dispatch_greeting env s i hs]
      exact h
    · cases hf : get_missing_info s.candidate_data
      · rw [dispatch_collect_none env s i hs hf]
        exact h
      · rename_i f0
        have hset : getField (setField s.candidate_data f0 (extract_info_from_response i f0)) f = some v := by
          rw [getField_setField]
          by_cases hef : f = f0
          · rw [hef] at h
            rw [missing_none s.candidate_data f0 hf] at h
            cases h
          · rw [if_neg hef]
            exact h
        cases hg : get_missing_info (setField s.candidate_data f0 (extract_info_from_response i f0))
        · rw [dispatch_collect_done env s i f0 hs hf hg]
          exact hset
        · rename_i g
          rw [dispatch_collect_more env s i f0 g hs hf hg]
          exact hset
    · by_cases h5 : s.tech_questions_asked + 1 < 5
      · rw [dispatch_tech_continue env s i hs h5]
        show getField { s.candidate_data with technical_answers := _ } f = some v
        rw [getField_answers]
        exact h
      · rw [dispatch_tech_finish env s i hs h5, (save_session env _).2.1]
        show getField { s.candidate_data with technical_answers := _ } f = some v
        rw [getField_answers]
        exact h
    · rw [dispatch_farewell env s i hs]
      exact h

theorem turn_persist (env : Env) (s : State) (i : String) (f : FieldKey) (v : String)
    (h : getField s.candidate_data f = some v) :
    getField (turn env s i).candidate_data f = some v := by
  unfold turn
  have hw := withGreeting_session env s
  have h' : getField (withGreeting env s).candidate_data f = some v := by
    rw [hw.2.1]
    exact h
  generalize withGreeting env s = u at h'
  unfold submitFlow
  cases hu : u.conversation_active
  case false =>
    rw [if_pos rfl]
    exact h'
  case true =>
    rw [if_neg (by decide)]
    by_cases hi : i = ""
    · rw [if_pos hi]
      exact h'
    · rw [if_neg hi]
      exact process_persist env _ i f v h'

theorem run_order : ∀ ts : List (Env × String),
    noGapFill (fieldMask (run ts).candidate_data) = true := by
  have key : ∀ (ts : List (Env × String)) (s : State),
      noGapFill (fieldMask s.candidate_data) = true →
      noGapFill (fieldMask (ts.foldl (fun s t => turn t.1 s t.2) s).candidate_data) = true := by
    intro ts
    induction ts with
    | nil => intro s h; exact h
    | cons t ts ih => intro s h; exact ih _ (turn_order t.1 s t.2 h)
  intro ts
  exact key ts init (by decide)

theorem persist_fold : ∀ (more : List (Env × String)) (s : State) (f : FieldKey) (v : String),
    getField s.candidate_data f = some v →
    getField ((more.foldl (fun s t => turn t.1 s t.2) s)).candidate_data f = some v := by
  intro more
  induction more with
  | nil => intro s f v h; exact h
  | cons t ts ih => intro s f v h; exact ih _ f v (turn_persist t.1 s t.2 f v h)

end App

namespace Grok

/-- The field-fill invariant of app_grok.py: the cursor stays within
bounds and a field is set exactly when its position is below the
cursor. -/
def MaskInv (s : State) : Prop :=
  s.current_field_index ≤ 7 ∧
  ∀ k, k < 7 →
    (getField s.candidate_data (FIELD_ORDER.getD k FieldKey.name)).isSome =
      decide (k < s.current_field_index)

theorem maskInv_transport (s t : State)
    (hg : ∀ f, getField t.candidate_data f = getField s.candidate_data f)
    (hidx : t.current_field_index = s.current_field_index)
    (h : MaskInv s) : MaskInv t := by
  obtain ⟨h1, h2⟩ := h
  refine ⟨by rw [hidx]; exact h1, ?_⟩
  intro k hk
  rw [hg, hidx]
  exact h2 k hk

theorem exitFlow_idx (env : Env) (s : State) :
    (exitFlow env s).current_field_index = s.current_field_index := by
  rw [exitFlow_eqG]
  exact (save_sessionG env s).2.2.2.2.2.1

theorem setCursor_mask (d : CandidateData) (idx : Nat) (v : String)
    (hidx : idx < 7)
    (h : ∀ k, k < 7 →
      (getField d (FIELD_ORDER.getD k FieldKey.name)).isSome = decide (k < idx)) :
    ∀ k, k < 7 →
      (getField (setField d (FIELD_ORDER.getD idx FieldKey.name) v)
        (FIELD_ORDER.getD k FieldKey.name)).isSome = decide (k < idx + 1) := by
  intro k hk
  rw [getField_setField]
  by_cases he : FIELD_ORDER.getD k FieldKey.name = FIELD_ORDER.getD idx FieldKey.name
  · rw [if_pos he]
    have : k = idx := fieldOrder_inj k idx hk hidx he
    rw [this]
    simp
  · rw [if_neg he]
    have hne : k ≠ idx := by
      intro hc
      exact he (by rw [hc])
    rw [h k hk]
    exact decide_eq_decide.mpr (by omega)

theorem info_mask (env : Env) (s : State) (i : String) (h : MaskInv s) :
    MaskInv (process_user_input_info env s i) := by
  obtain ⟨h1, h2⟩ := h
  by_cases hidx : s.current_field_index < FIELD_ORDER.length
  · rw [info_lt env s i hidx]
    have hidx7 : s.current_field_index < 7 := by simpa [FIELD_ORDER] using hidx
    refine maskInv_transport _ _
      (fun f => by rw [(ask_session env false _).1]) (ask_session env false _).2.1 ?_
    constructor
    · show s.current_field_index + 1 ≤ 7
      omega
    · exact setCursor_mask s.candidate_data s.current_field_index i.pyStrip hidx7 h2
  · rw [info_ge env s i hidx]
    exact maskInv_transport _ _
      (fun f => by rw [(ask_session env false _).1]) (ask_session env false _).2.1 ⟨h1, h2⟩

theorem tech_mask (env : Env) (s : State) (i : String) (h : MaskInv s) :
    MaskInv (process_user_input_technical env s i) := by
  by_cases h5 : s.tech_questions_asked + 1 < 5
  · rw [tech_continue env s i h5]
    exact maskInv_transport s _ (fun f => getField_answers _ _ f) rfl h
  · rw [tech_finish env s i h5]
    refine maskInv_transport s _ ?_ ?_ h
    · intro f
      show getField (save_candidate_data env _).1.candidate_data f = _
      rw [(save_sessionG env _).2.1]
      exact getField_answers _ _ f
    · show (save_candidate_data env _).1.current_field_index = _
      rw [(save_sessionG env _).2.2.2.2.2.1]

theorem exitFlow_mask (env : Env) (s : State) (h : MaskInv s) : MaskInv (exitFlow env s) :=
  maskInv_transport s _ (fun f => by rw [exitFlow_cdG]) (exitFlow_idx env s) h

theorem submit_mask (env : Env) (s : State) (i : String) (h : MaskInv s) :
    MaskInv (submitFlow env s i) := by
  cases hu : s.conversation_active
  case false =>
    rw [submit_inactiveG env s i hu]
    exact h
  case true =>
    by_cases hi : i.pyStrip = ""
    · rw [submit_blankG env s i hu hi]
      exact maskInv_transport s _ (fun f => rfl) rfl h
    · by_cases hd : s.last_user_message = some i.pyStrip
      · rw [submit_dup env s i hu hi hd]
        exact maskInv_transport s _ (fun f => rfl) rfl h
      · have h2 : MaskInv
            { s with last_user_message := some i.pyStrip
                     messages := s.messages ++ [Message.mk "user" i.pyStrip] } :=
          maskInv_transport s _ (fun f => rfl) rfl h
        by_cases hx : exit_keywords.any (fun word => hasSub word i.pyStrip.pyLower) = true
        · rw [submit_exit env s i hu hi hd hx]
          exact exitFlow_mask env _ h2
        · have hx2 : (exit_keywords.any fun word => hasSub word i.pyStrip.pyLower) = false := by
            simpa using hx
          cases hs : s.stage
          · rw [submit_other env s i hu hi hd hx2 (by rw [hs]; simp) (by rw [hs]; simp)]
            exact maskInv_transport s _ (fun f => rfl) rfl h
          · rw [submit_collect env s i hu hi hd hx2 hs]
            exact info_mask env _ i.pyStrip h2
          · rw [submit_tech env s i hu hi hd hx2 hs]
            exact tech_mask env _ i.pyStrip h2
          · rw [submit_other env s i hu hi hd hx2 (by rw [hs]; simp) (by rw [hs]; simp)]
            exact maskInv_transport s _ (fun f => rfl) rfl h

theorem handle_mask (env : Env) (s : State) (h : MaskInv s) :
    MaskInv (handle_greeting_stage env s) := by
  cases hg : s.greeted
  · rw [greet_new env s hg]
    refine maskInv_transport s _ ?_ ?_ h
    · intro f
      rw [(ask_session env true _).1]
    · rw [(ask_session env true _).2.1]
  · rw [greet_done env s hg]
    exact h

theorem turn_mask (env : Env) (s : State) (i : String) (h : MaskInv s) :
    MaskInv (turn env s i) := by
  by_cases hs : s.stage = Stage.greeting
  · rw [turn_greet env s i hs]
    exact submit_mask env _ i (handle_mask env s h)
  · rw [turn_nogreet env s i hs]
    exact submit_mask env s i h

theorem run_mask : ∀ ts : List (Env × String), MaskInv (run ts) := by
  have key : ∀ (ts : List (Env × String)) (s : State), MaskInv s →
      MaskInv (ts.foldl (fun s t => turn t.1 s t.2) s) := by
    intro ts
    induction ts with
    | nil => intro s h; exact h
    | cons t ts ih => intro s h; exact ih _ (turn_mask t.1 s t.2 h)
  intro ts
  exact key ts init ⟨by decide, by decide⟩

theorem order_of_mask (s : State) (h : MaskInv s) :
    noGapFill (fieldMask s.candidate_data) = true := by
  obtain ⟨hle, hm⟩ := h
  have h0 : (getField s.candidate_data FieldKey.name).isSome =
      decide (0 < s.current_field_index) := hm 0 (by omega)
  have h1 : (getField s.candidate_data FieldKey.email).isSome =
      decide (1 < s.current_field_index) := hm 1 (by omega)
  have h2 : (getField s.candidate_data FieldKey.phone).isSome =
      decide (2 < s.current_field_index) := hm 2 (by omega)
  have h3 : (getField s.candidate_data FieldKey.experience).isSome =
      decide (3 < s.current_field_index) := hm 3 (by omega)
  have h4 : (getField s.candidate_data FieldKey.position).isSome =
      decide (4 < s.current_field_index) := hm 4 (by omega)
  have h5 : (getField s.candidate_data FieldKey.location).isSome =
      decide (5 < s.current_field_index) := hm 5 (by omega)
  have h6 : (getField s.candidate_data FieldKey.tech_stack).isSome =
      decide (6 < s.current_field_index) := hm 6 (by omega)
  unfold fieldMask FIELD_ORDER
  simp only [List.map]
  rw [h0, h1, h2, h3, h4, h5, h6]
  interval_cases h : s.current_field_index <;> decide

end Grok

namespace Grok

theorem info_persist (env : Env) (s : State) (i : String) (f : FieldKey) (v : String)
    (hm : MaskInv s) (h : getField s.candidate_data f = some v) :
    getField (process_user_input_info env s i).candidate_data f = some v := by
  by_cases hidx : s.current_field_index < FIELD_ORDER.length
  · rw [info_lt env s i hidx]
    rw [(ask_session env false _).1]
    show getField (setField s.candidate_data _ i.pyStrip) f = some v
    rw [getField_setField]
    by_cases he : f = FIELD_ORDER.getD s.current_field_index FieldKey.name
    · exfalso
      have hidx7 : s.current_field_index < 7 := by simpa [FIELD_ORDER] using hidx
      have hmask := hm.2 s.current_field_index hidx7
      rw [← he, h] at hmask
      simp at hmask
    · rw [if_neg he]
      exact h
  · rw [info_ge env s i hidx]
    rw [(ask_session env false _).1]
    exact h

theorem tech_persist (env : Env) (s : State) (i : String) (f : FieldKey) (v : String)
    (h : getField s.candidate_data f = some v) :
    getField (process_user_input_technical env s i).candidate_data f = some v := by
  by_cases h5 : s.tech_questions_asked + 1 < 5
  · rw [tech_continue env s i h5]
    show getField { s.candidate_data with technical_answers := _ } f = some v
    rw [getField_answers]
    exact h
  · rw [tech_finish env s i h5]
    show getField (save_candidate_data env _).1.candidate_data f = some v
    rw [(save_sessionG env _).2.1]
    show getField { s.candidate_data with technical_answers := _ } f = some v
    rw [getField_answers]
    exact h

theorem submit_persist (env : Env) (s : State) (i : String) (f : FieldKey) (v : String)
    (hm : MaskInv s) (h : getField s.candidate_data f = some v) :
    getField (submitFlow env s i).candidate_data f = some v := by
  cases hu : s.conversation_active
  case false =>
    rw [submit_inactiveG env s i hu]
    exact h
  case true =>
    by_cases hi : i.pyStrip = ""
    · rw [submit_blankG env s i hu hi]
      exact h
    · by_cases hd : s.last_user_message = some i.pyStrip
      · rw [submit_dup env s i hu hi hd]
        exact h
      · have hm2 : MaskInv
            { s with last_user_message := some i.pyStrip
                     messages := s.messages ++ [Message.mk "user" i.pyStrip] } :=
          maskInv_transport s _ (fun f => rfl) rfl hm
        by_cases hx : exit_keywords.any (fun word => hasSub word i.pyStrip.pyLower) = true
        · rw [submit_exit env s i hu hi hd hx, exitFlow_cdG]
          exact h
        · have hx2 : (exit_keywords.any fun word => hasSub word i.pyStrip.pyLower) = false := by
            simpa using hx
          cases hs : s.stage
          · rw [submit_other env s i hu hi hd hx2 (by rw [hs]; simp) (by rw [hs]; simp)]
            exact h
          · rw [submit_collect env s i hu hi hd hx2 hs]
            exact info_persist env _ i.pyStrip f v hm2 h
          · rw [submit_tech env s i hu hi hd hx2 hs]
            exact tech_persist env _ i.pyStrip f v h
          · rw [submit_other env s i hu hi hd hx2 (by rw [hs]; simp) (by rw [hs]; simp)]
            exact h

theorem turn_persistG (env : Env) (s : State) (i : String) (f : FieldKey) (v : String)
    (hm : MaskInv s) (h : getField s.candidate_data f = some v) :
    getField (turn env s i).candidate_data f = some v := by
  by_cases hs : s.stage = Stage.greeting
  · rw [turn_greet env s i hs]
    refine submit_persist env _ i f v (handle_mask env s hm) ?_
    cases hg : s.greeted
    · rw [greet_new env s hg, (ask_session env true _).1]
      exact h
    · rw [greet_done env s hg]
      exact h
  · rw [turn_nogreet env s i hs]
    exact submit_persist env s i f v hm h

theorem persist_foldG : ∀ (more : List (Env × String)) (s : State) (f : FieldKey) (v : String),
    MaskInv s → getField s.candidate_data f = some v →
    getField ((more.foldl (fun s t => turn t.1 s t.2) s)).candidate_data f = some v := by
  intro more
  induction more with
  | nil => intro s f v _ h; exact h
  | cons t ts ih =>
      intro s f v hm h
      exact ih _ f v (turn_mask t.1 s t.2 hm) (turn_persistG t.1 s t.2 f v hm h)

end Grok

/-- C3: in both implementations, at every reachable point the set
candidate fields form a prefix of the declared order name, email, phone,
experience, position, location, tech_stack (fields are filled strictly
in that order), and a field that is set at some point still holds the
same value after any further inputs — no overwrite without a session
reset. -/
theorem C3_fill_order_no_overwrite :
    ∀ (ts more : List (Env × String)) (f : FieldKey) (v : String),
      noGapFill (fieldMask (App.run ts).candidate_data) = true ∧
      noGapFill (fieldMask (Grok.run ts).candidate_data) = true ∧
      (getField (App.run ts).candidate_data f = some v →
        getField (App.run (ts ++ more)).candidate_data f = some v) ∧
      (getField (Grok.run ts).candidate_data f = some v →
        getField (Grok.run (ts ++ more)).candidate_data f = some v) := by
  intro ts more f v
  refine ⟨App.run_order ts, Grok.order_of_mask _ (Grok.run_mask ts), ?_, ?_⟩
  · intro h
    show getField ((ts ++ more).foldl (fun s t => App.turn t.1 s t.2) App.init).candidate_data f
      = some v
    rw [List.foldl_append]
    exact App.persist_fold more _ f v h
  · intro h
    show getField ((ts ++ more).foldl (fun s t => Grok.turn t.1 s t.2) Grok.init).candidate_data f
      = some v
    rw [List.foldl_append]
    exact Grok.persist_foldG more _ f v (Grok.run_mask ts) h

/-- Witness for C3 on a concrete two-turn prefix and one-turn extension. -/
theorem C3_witness :
    noGapFill (fieldMask (App.run [(envC, "hi"), (envC, "Ada Lovelace")]).candidate_data) = true ∧
    noGapFill (fieldMask (Grok.run [(envC, "hi"), (envC, "Ada Lovelace")]).candidate_data) = true ∧
    getField (App.run ([(envC, "hi"), (envC, "Ada Lovelace")] ++ [(envC, "ada at mail")])).candidate_data
      FieldKey.name = some "Ada Lovelace" ∧
    getField (Grok.run ([(envC, "hi"), (envC, "Ada Lovelace")] ++ [(envC, "ada at mail")])).candidate_data
      FieldKey.name = some "hi" :=
  ⟨(C3_fill_order_no_overwrite [(envC, "hi"), (envC, "Ada Lovelace")] [(envC, "ada at mail")]
      FieldKey.name "Ada Lovelace").1,
   (C3_fill_order_no_overwrite [(envC, "hi"), (envC, "Ada Lovelace")] [(envC, "ada at mail")]
      FieldKey.name "Ada Lovelace").2.1,
   (C3_fill_order_no_overwrite [(envC, "hi"), (envC, "Ada Lovelace")] [(envC, "ada at mail")]
      FieldKey.name "Ada Lovelace").2.2.1 (by rfl),
   (C3_fill_order_no_overwrite [(envC, "hi"), (envC, "Ada Lovelace")] [(envC, "ada at mail")]
      FieldKey.name "hi").2.2.2 (by rfl)⟩

/-- A concrete app.py state in the collect_info stage, used by concrete
counterexamples and witnesses. -/
def appCollectState : App.State :=
  { messages := [Message.mk "assistant" "hi"]
    candidate_data := emptyData
    stage := Stage.collect_info
    tech_questions_asked := 0
    conversation_active := true
    technical_questions := ""
    savedFiles := []
    notices := [] }

/-- A concrete app_grok.py state in the collect_info stage, used by
concrete counterexamples and witnesses. -/
def grokCollectState : Grok.State :=
  { messages := [Message.mk "assistant" "hi"]
    candidate_data := emptyData
    current_field_index := 0
    tech_questions_asked := 0
    conversation_active := true
    technical_questions := ""
    stage := Stage.collect_info
    greeted := true
    last_user_message := none
    dirs := []
    savedFiles := []
    notices := [] }

theorem App.exitFlow_messages (env : Env) (s : State) :
    (exitFlow env s).messages = s.messages ++
      [Message.mk "assistant" (env.llm "Generate farewell message" SP_farewell)] := by
  rw [exitFlow_eq]
  rw [(save_session env _).2.2.1]

theorem App.exitFlow_files (env : Env) (s : State) (e0 : env.fsErr = none) :
    (exitFlow env s).savedFiles = s.savedFiles ++
      [SavedFile.mk ("candidate_" ++ env.tsFile ++ ".json") s.candidate_data 2] := by
  rw [exitFlow_eq, save_eq_ok env _ e0]

theorem Grok.exitFlow_filesG (env : Env) (s : State) (e0 : env.fsErr = none) :
    (exitFlow env s).savedFiles = s.savedFiles ++
      [SavedFile.mk ("candidate_data/" ++ sanitizedName s.candidate_data.name ++ "_" ++
         env.tsFile ++ ".json") s.candidate_data 2] := by
  rw [exitFlow_eqG]
  show (save_candidate_data env s).1.savedFiles = _
  rw [save_eq_okG env s e0]

/-- C4 counterexample: the input "no thanks" contains none of the six
keywords named by the claim, yet app.py immediately deactivates the
conversation and jumps to the farewell stage on it. -/
theorem C4_counterexample :
    specExitKeywords.all (fun k => !(hasSub k "no thanks")) = true ∧
    appCollectState.conversation_active = true ∧
    (App.turn envC appCollectState "no thanks").conversation_active = false ∧
    (App.turn envC appCollectState "no thanks").stage = Stage.farewell := by
  exact ⟨by decide, rfl, by rfl, by rfl⟩

/-- C4 amended: the trigger set is the six spec keywords in app_grok.py,
but app.py additionally includes "no thanks" and "that's all"; in both
implementations an input containing a listed keyword (case-insensitive
substring test) takes the exit shortcut — farewell message appended,
record persisted, conversation deactivated, normal stage routing
bypassed — and an input containing none of the listed keywords takes the
normal stage routing instead. -/
theorem C4_amended :
    ∀ (env : Env) (s : App.State) (t : Grok.State) (i : String),
      App.exit_keywords = specExitKeywords ++ ["no thanks", "that\x27s all"] ∧
      Grok.exit_keywords = specExitKeywords ∧
      (App.exit_keywords.any (fun keyword => hasSub keyword i.pyLower.pyStrip) = true →
        App.process_user_input env s i = App.exitFlow env s) ∧
      (App.exit_keywords.any (fun keyword => hasSub keyword i.pyLower.pyStrip) = false →
        App.process_user_input env s i = App.stageDispatch env s i) ∧
      ((App.exitFlow env s).conversation_active = false ∧
       (App.exitFlow env s).stage = Stage.farewell ∧
       (App.exitFlow env s).messages = s.messages ++
         [Message.mk "assistant" (env.llm "Generate farewell message" App.SP_farewell)] ∧
       (env.fsErr = none →
         (App.exitFlow env s).savedFiles = s.savedFiles ++
           [SavedFile.mk ("candidate_" ++ env.tsFile ++ ".json") s.candidate_data 2])) ∧
      ((Grok.exitFlow env t).conversation_active = false ∧
       (env.fsErr = none →
         (Grok.exitFlow env t).savedFiles = t.savedFiles ++
           [SavedFile.mk ("candidate_data/" ++ Grok.sanitizedName t.candidate_data.name ++ "_" ++
              env.tsFile ++ ".json") t.candidate_data 2])) ∧
      (t.conversation_active = true → i.pyStrip ≠ "" → t.last_user_message ≠ some i.pyStrip →
        (Grok.exit_keywords.any (fun word => hasSub word i.pyStrip.pyLower) = true →
          Grok.submitFlow env t i = Grok.exitFlow env
            { t with last_user_message := some i.pyStrip
                     messages := t.messages ++ [Message.mk "user" i.pyStrip] }) ∧
        (Grok.exit_keywords.any (fun word => hasSub word i.pyStrip.pyLower) = false →
          Grok.submitFlow env t i =
            (let s2 : Grok.State :=
               { t with last_user_message := some i.pyStrip
                        messages := t.messages ++ [Message.mk "user" i.pyStrip] }
             if t.stage = Stage.collect_info then
               Grok.process_user_input_info env s2 i.pyStrip
             else if t.stage = Stage.technical_questions then
               Grok.process_user_input_technical env s2 i.pyStrip
             else
               { s2 with
                 messages := s2.messages ++
                   [Message.mk "assistant" "I\x27m not sure what to do next. Restarting interview."]
                 conversation_active := false }))) := by
  intro env s t i
  refine ⟨rfl, rfl, ?_, ?_, ?_, ?_, ?_⟩
  · intro hx
    exact App.process_exit env s i hx
  · intro hx
    exact App.process_noexit env s i hx
  · exact ⟨App.exitFlow_active env s, App.exitFlow_stage env s,
      App.exitFlow_messages env s, fun e0 => App.exitFlow_files env s e0⟩
  · exact ⟨Grok.exitFlow_activeG env t, fun e0 => Grok.exitFlow_filesG env t e0⟩
  · intro ha hi hd
    refine ⟨fun hx => Grok.submit_exit env t i ha hi hd hx, fun hx2 => ?_⟩
    cases hs : t.stage
    · rw [Grok.submit_other env t i ha hi hd hx2 (by rw [hs]; simp) (by rw [hs]; simp)]
      simp [hs]
    · rw [Grok.submit_collect env t i ha hi hd hx2 hs]
      simp [hs]
    · rw [Grok.submit_tech env t i ha hi hd hx2 hs]
      simp [hs]
    · rw [Grok.submit_other env t i ha hi hd hx2 (by rw [hs]; simp) (by rw [hs]; simp)]
      simp [hs]

/-- Witness for C4 at concrete exit and non-exit inputs. -/
theorem C4_witness :
    App.process_user_input envC appCollectState "goodbye" = App.exitFlow envC appCollectState ∧
    App.process_user_input envC appCollectState "hello there" =
      App.stageDispatch envC appCollectState "hello there" ∧
    (App.exitFlow envC appCollectState).savedFiles = appCollectState.savedFiles ++
      [SavedFile.mk ("candidate_" ++ envC.tsFile ++ ".json") appCollectState.candidate_data 2] ∧
    Grok.submitFlow envC grokCollectState "goodbye" =
      Grok.exitFlow envC
        { grokCollectState with
          last_user_message := some (String.pyStrip "goodbye")
          messages := grokCollectState.messages ++ [Message.mk "user" (String.pyStrip "goodbye")] } :=
  ⟨(C4_amended envC appCollectState grokCollectState "goodbye").2.2.1 (by rfl),
   (C4_amended envC appCollectState grokCollectState "hello there").2.2.2.1 (by rfl),
   (C4_amended envC appCollectState grokCollectState "goodbye").2.2.2.2.1.2.2.2 rfl,
   ((C4_amended envC appCollectState grokCollectState "goodbye").2.2.2.2.2.2 rfl
      (by decide) (by decide)).1 (by rfl)⟩

/-- C5: both LLM wrappers are total functions into strings — a missing
credential yields the human-readable warning string without any network
request, a successful response yields its content, transport or other
exceptions are caught and yield error-describing strings, at most one
request is made per call, and the result depends only on the single
outcome of that one request (no automatic retry). -/
theorem C5_llm_wrapper_total_no_retry :
    ∀ (key : String) (net net2 : Nat → NetOutcome) (k : Nat) (p sp : String),
      ((call_groq_api key net k p sp).2 = if key = "" then k else k + 1) ∧
      (key = "" → (call_groq_api key net k p sp).1 =
        "⚠️ Add GROQ_API_KEY in environment or Streamlit secrets to enable AI responses.") ∧
      (∀ c, key ≠ "" → net k = NetOutcome.ok c → (call_groq_api key net k p sp).1 = c) ∧
      (∀ e, key ≠ "" → net k = NetOutcome.transportErr e →
        (call_groq_api key net k p sp).1 = "Error connecting to Groq API: " ++ e) ∧
      (∀ e, key ≠ "" → net k = NetOutcome.otherErr e →
        (call_groq_api key net k p sp).1 = "An unexpected error occurred: " ++ e) ∧
      (net k = net2 k → call_groq_api key net k p sp = call_groq_api key net2 k p sp) ∧
      ((call_llm key net k p sp).2 = if key = "" then k else k + 1) ∧
      (key = "" → (call_llm key net k p sp).1 =
        "⚠️ Please configure your API key in the .streamlit/secrets.toml file or environment variables.") ∧
      (∀ c, key ≠ "" → net k = NetOutcome.ok c → (call_llm key net k p sp).1 = c) ∧
      (∀ e, key ≠ "" → (net k = NetOutcome.transportErr e ∨ net k = NetOutcome.otherErr e) →
        (call_llm key net k p sp).1 =
          "Error calling LLM: " ++ e ++ "\n\nPlease check your API configuration.") ∧
      (net k = net2 k → call_llm key net k p sp = call_llm key net2 k p sp) := by
  intro key net net2 k p sp
  refine ⟨?_, ?_, ?_, ?_, ?_, ?_, ?_, ?_, ?_, ?_, ?_⟩
  · by_cases hk : key = ""
    · simp [call_groq_api, hk]
    · cases hn : net k <;> simp [call_groq_api, hk, hn]
  · intro hk
    simp [call_groq_api, hk]
  · intro c hk hn
    simp [call_groq_api, hk, hn]
  · intro e hk hn
    simp [call_groq_api, hk, hn]
  · intro e hk hn
    simp [call_groq_api, hk, hn]
  · intro he
    by_cases hk : key = ""
    · simp [call_groq_api, hk]
    · unfold call_groq_api
      rw [if_neg hk, if_neg hk, ← he]
  · by_cases hk : key = ""
    · simp [call_llm, hk]
    · cases hn : net k <;> simp [call_llm, hk, hn]
  · intro hk
    simp [call_llm, hk]
  · intro c hk hn
    simp [call_llm, hk, hn]
  · intro e hk hn
    rcases hn with hn | hn <;> simp [call_llm, hk, hn]
  · intro he
    by_cases hk : key = ""
    · simp [call_llm, hk]
    · unfold call_llm
      rw [if_neg hk, if_neg hk, ← he]

/-- Witness for C5 at concrete credentials and network outcomes. -/
theorem C5_witness :
    (call_groq_api "" (fun _ => NetOutcome.ok "hi") 0 "p" "s").1 =
      "⚠️ Add GROQ_API_KEY in environment or Streamlit secrets to enable AI responses." ∧
    (call_groq_api "k1" (fun _ => NetOutcome.transportErr "timeout") 0 "p" "s").1 =
      "Error connecting to Groq API: " ++ "timeout" ∧
    (call_llm "k1" (fun _ => NetOutcome.transportErr "timeout") 0 "p" "s").1 =
      "Error calling LLM: " ++ "timeout" ++ "\n\nPlease check your API configuration." ∧
    (call_groq_api "k1" (fun _ => NetOutcome.ok "hi") 0 "p" "s").2 = 1 :=
  ⟨(C5_llm_wrapper_total_no_retry "" (fun _ => NetOutcome.ok "hi")
      (fun _ => NetOutcome.ok "hi") 0 "p" "s").2.1 rfl,
   (C5_llm_wrapper_total_no_retry "k1" (fun _ => NetOutcome.transportErr "timeout")
      (fun _ => NetOutcome.transportErr "timeout") 0 "p" "s").2.2.2.1 "timeout" (by decide) rfl,
   (C5_llm_wrapper_total_no_retry "k1" (fun _ => NetOutcome.transportErr "timeout")
      (fun _ => NetOutcome.transportErr "timeout") 0 "p" "s").2.2.2.2.2.2.2.2.2.1 "timeout"
      (by decide) (Or.inl rfl),
   ((C5_llm_wrapper_total_no_retry "k1" (fun _ => NetOutcome.ok "hi")
      (fun _ => NetOutcome.ok "hi") 0 "p" "s").1).trans (if_neg (by decide))⟩

/-- A concrete app.py state one answer away from completing the five
technical questions, with the candidate name set. -/
def appTechSave : App.State :=
  { messages := [Message.mk "assistant" "hi"]
    candidate_data := { emptyData with name := some "Ada Lovelace", tech_stack := some "Python" }
    stage := Stage.technical_questions
    tech_questions_asked := 4
    conversation_active := true
    technical_questions := "qs"
    savedFiles := []
    notices := [] }

/-- C6 counterexample: on reaching the terminal stage, app.py writes the
record to `candidate_<timestamp>.json` in the working directory — the
file name contains neither a directory separator nor the (set) sanitized
candidate name, contradicting the claimed naming scheme. -/
theorem C6_counterexample :
    (App.turn envC appTechSave "final thoughts").savedFiles.map SavedFile.path =
      ["candidate_20250101_000000.json"] ∧
    hasSub "/" "candidate_20250101_000000.json" = false ∧
    hasSub "Ada" "candidate_20250101_000000.json" = false ∧
    appTechSave.candidate_data.name = some "Ada Lovelace" := by
  exact ⟨by rfl, by decide, by decide, rfl⟩

/-- C6 amended: on reaching the terminal stage the full record is dumped
with 2-space indentation; app_grok.py writes
`candidate_data/<sanitized name>_<timestamp>.json` under its dedicated
output directory, while app.py writes `candidate_<timestamp>.json` in
the working directory (no name component, no directory); in both, a
write failure is caught and surfaced as an error message (app.py: an
st.error notice; app_grok.py: a transcript message) and the session
state is otherwise unchanged by the failure. -/
theorem C6_amended :
    ∀ (env : Env) (s : App.State) (t : Grok.State) (e : String),
      (env.fsErr = none →
        App.save_candidate_data env s =
          { s with savedFiles := s.savedFiles ++
              [SavedFile.mk ("candidate_" ++ env.tsFile ++ ".json") s.candidate_data 2]
                   notices := s.notices ++
              ["✅ Candidate data saved to " ++ ("candidate_" ++ env.tsFile ++ ".json")] }) ∧
      (env.fsErr = some e →
        App.save_candidate_data env s =
          { s with notices := s.notices ++ ["Error saving data: " ++ e] }) ∧
      (env.fsErr = none →
        Grok.save_candidate_data env t =
          ({ t with dirs :=
                      if t.dirs.contains "candidate_data" then t.dirs
                      else t.dirs ++ ["candidate_data"]
                    savedFiles := t.savedFiles ++
                      [SavedFile.mk ("candidate_data/" ++ Grok.sanitizedName t.candidate_data.name ++
                         "_" ++ env.tsFile ++ ".json") t.candidate_data 2] },
           "✅ Data saved: `" ++ ("candidate_data/" ++ Grok.sanitizedName t.candidate_data.name ++
             "_" ++ env.tsFile ++ ".json") ++ "`")) ∧
      (env.fsErr = some e →
        Grok.save_candidate_data env t = (t, "Error saving data: " ++ e)) ∧
      (env.fsErr = none →
        (App.exitFlow env s).savedFiles = s.savedFiles ++
          [SavedFile.mk ("candidate_" ++ env.tsFile ++ ".json") s.candidate_data 2]) ∧
      (env.fsErr = none →
        (Grok.exitFlow env t).savedFiles = t.savedFiles ++
          [SavedFile.mk ("candidate_data/" ++ Grok.sanitizedName t.candidate_data.name ++
             "_" ++ env.tsFile ++ ".json") t.candidate_data 2]) ∧
      (env.fsErr = some e →
        (App.exitFlow env s).savedFiles = s.savedFiles ∧
        (App.exitFlow env s).notices = s.notices ++ ["Error saving data: " ++ e] ∧
        (App.exitFlow env s).candidate_data = s.candidate_data) ∧
      (env.fsErr = some e →
        (Grok.exitFlow env t).savedFiles = t.savedFiles ∧
        (Grok.exitFlow env t).messages = t.messages ++
          [Message.mk "assistant" (env.llm "Generate farewell" Grok.SP_farewell),
           Message.mk "assistant" ("Error saving data: " ++ e)] ∧
        (Grok.exitFlow env t).candidate_data = t.candidate_data) := by
  intro env s t e
  refine ⟨?_, ?_, ?_, ?_, ?_, ?_, ?_, ?_⟩
  · intro e0
    exact App.save_eq_ok env s e0
  · intro e0
    exact App.save_eq_err env s e e0
  · intro e0
    exact Grok.save_eq_okG env t e0
  · intro e0
    exact Grok.save_eq_errG env t e e0
  · intro e0
    exact App.exitFlow_files env s e0
  · intro e0
    exact Grok.exitFlow_filesG env t e0
  · intro e0
    rw [App.exitFlow_eq, App.save_eq_err env _ e e0]
    exact ⟨rfl, rfl, rfl⟩
  · intro e0
    rw [Grok.exitFlow_eqG]
    show ((Grok.save_candidate_data env t).1.savedFiles = _) ∧ _
    rw [Grok.save_eq_errG env t e e0]
    exact ⟨rfl, rfl, rfl⟩

/-- Witness for C6: a failing write at concrete states, and a successful
app_grok.py save path. -/
theorem C6_witness :
    App.save_candidate_data envF appCollectState =
      { appCollectState with
        notices := appCollectState.notices ++ ["Error saving data: " ++ "disk full"] } ∧
    Grok.save_candidate_data envF grokCollectState =
      (grokCollectState, "Error saving data: " ++ "disk full") ∧
    (Grok.exitFlow envC grokTechState).savedFiles = grokTechState.savedFiles ++
      [SavedFile.mk ("candidate_data/" ++ Grok.sanitizedName grokTechState.candidate_data.name ++
         "_" ++ envC.tsFile ++ ".json") grokTechState.candidate_data 2] :=
  ⟨(C6_amended envF appCollectState grokCollectState "disk full").2.1 rfl,
   (C6_amended envF appCollectState grokCollectState "disk full").2.2.2.1 rfl,
   (C6_amended envC appCollectState grokTechState "x").2.2.2.2.2.1 rfl⟩

/-- C7 counterexample: in app_grok.py's collect_info stage the
experience field stores the trimmed raw input verbatim — no number
extraction — so free text is kept whole instead of the first decimal
number. -/
theorem C7_counterexample :
    (Grok.run [(envC, "Ada"), (envC, "a mail"), (envC, "12345"),
               (envC, "I have 5 years of work experience")]).candidate_data.experience =
      some "I have 5 years of work experience" ∧
    ("I have 5 years of work experience" : String) ≠ "5" ∧
    ("I have 5 years of work experience" : String) ≠ "5 years" := by
  exact ⟨by rfl, by decide, by decide⟩

/-- C7 amended: in the collect_info stage the stored value is the
whitespace-trimmed raw input for every field — with one exception: in
app.py only, the experience field stores the first run of digits found
in the trimmed input with " years" appended, falling back to the trimmed
input verbatim when no digit occurs; app_grok.py stores the trimmed
input verbatim for all fields including experience; neither
implementation validates email or phone formats. -/
theorem C7_amended :
    ∀ (env : Env) (s : App.State) (t : Grok.State) (i : String) (f : FieldKey),
      (f ≠ FieldKey.experience → App.extract_info_from_response i f = i.pyStrip) ∧
      (∀ ds, firstDigits i.pyStrip.data = some ds →
        App.extract_info_from_response i FieldKey.experience = ds ++ " years") ∧
      (firstDigits i.pyStrip.data = none →
        App.extract_info_from_response i FieldKey.experience = i.pyStrip) ∧
      (s.stage = Stage.collect_info → App.get_missing_info s.candidate_data = some f →
        (App.stageDispatch env s i).candidate_data =
          setField s.candidate_data f (App.extract_info_from_response i f)) ∧
      (t.conversation_active = true → i.pyStrip ≠ "" → t.last_user_message ≠ some i.pyStrip →
        Grok.exit_keywords.any (fun word => hasSub word i.pyStrip.pyLower) = false →
        t.stage = Stage.collect_info → t.current_field_index < FIELD_ORDER.length →
        (Grok.submitFlow env t i).candidate_data =
          setField t.candidate_data (FIELD_ORDER.getD t.current_field_index FieldKey.name)
            i.pyStrip) := by
  intro env s t i f
  refine ⟨?_, ?_, ?_, ?_, ?_⟩
  · intro hf
    simp [App.extract_info_from_response, hf]
  · intro ds hd
    simp [App.extract_info_from_response, hd]
  · intro hd
    simp [App.extract_info_from_response, hd]
  · intro hs hf
    cases hg : App.get_missing_info
        (setField s.candidate_data f (App.extract_info_from_response i f))
    · rw [App.dispatch_collect_done env s i f hs hf hg]
    · rename_i g
      rw [App.dispatch_collect_more env s i f g hs hf hg]
  · intro ha hi hd hx hs hidx
    rw [Grok.submit_collect env t i ha hi hd hx hs]
    have h2 := Grok.info_lt env
      { t with last_user_message := some i.pyStrip
               messages := t.messages ++ [Message.mk "user" i.pyStrip] } i.pyStrip hidx
    rw [h2, (Grok.ask_session env false _).1]
    show setField t.candidate_data (FIELD_ORDER.getD t.current_field_index FieldKey.name)
      i.pyStrip.pyStrip = _
    rw [pyStrip_idem]

/-- Witness for C7 at concrete inputs: a non-experience field, an
experience input with digits, one without, and both dispatch paths. -/
theorem C7_witness :
    App.extract_info_from_response "  John Doe  " FieldKey.name = String.pyStrip "  John Doe  " ∧
    App.extract_info_from_response "about 12 years" FieldKey.experience = "12" ++ " years" ∧
    App.extract_info_from_response "several years" FieldKey.experience =
      String.pyStrip "several years" ∧
    (App.stageDispatch envC appCollectState "  John Doe  ").candidate_data =
      setField appCollectState.candidate_data FieldKey.name
        (App.extract_info_from_response "  John Doe  " FieldKey.name) ∧
    (Grok.submitFlow envC grokCollectState "  John Doe  ").candidate_data =
      setField grokCollectState.candidate_data
        (FIELD_ORDER.getD grokCollectState.current_field_index FieldKey.name)
        (String.pyStrip "  John Doe  ") :=
  ⟨(C7_amended envC appCollectState grokCollectState "  John Doe  " FieldKey.name).1 (by decide),
   (C7_amended envC appCollectState grokCollectState "about 12 years" FieldKey.name).2.1 "12" (by rfl),
   (C7_amended envC appCollectState grokCollectState "several years" FieldKey.name).2.2.1 (by rfl),
   (C7_amended envC appCollectState grokCollectState "  John Doe  " FieldKey.name).2.2.2.1 rfl (by rfl),
   (C7_amended envC appCollectState grokCollectState "  John Doe  " FieldKey.name).2.2.2.2 rfl
     (by decide) (by decide) (by rfl) rfl (by decide)⟩

/-- C8: in app_grok.py, a submission identical to the immediately
preceding processed user input is ignored: apart from the transient
st.info render notice, the session state — transcript, candidate record,
stage, counters, cursor, activity flag, saved files — is unchanged. -/
theorem C8_duplicate_ignored :
    ∀ (env : Env) (s : Grok.State) (i : String),
      s.greeted = true → i.pyStrip ≠ "" → s.last_user_message = some i.pyStrip →
      Grok.sessionOf (Grok.turn env s i) = Grok.sessionOf s := by
  intro env s i hg hi hd
  have hsub : Grok.submitFlow env s i = s ∨
      Grok.submitFlow env s i = { s with notices := s.notices ++ ["Duplicate message detected — ignored."] } := by
    cases hu : s.conversation_active
    · exact Or.inl (Grok.submit_inactiveG env s i hu)
    · exact Or.inr ((Grok.submit_dup env s i hu hi hd).trans (by rw [hu]))
  have hturn : Grok.turn env s i = Grok.submitFlow env s i := by
    by_cases hs : s.stage = Stage.greeting
    · rw [Grok.turn_greet env s i hs, Grok.greet_done env s hg]
    · rw [Grok.turn_nogreet env s i hs]
  rw [hturn]
  rcases hsub with h | h
  · rw [h]
  · rw [h]
    rfl

/-- Witness for C8: resubmitting "Ada" right after it was processed. -/
theorem C8_witness :
    Grok.sessionOf (Grok.turn envC (Grok.run [(envC, "Ada")]) "Ada") =
      Grok.sessionOf (Grok.run [(envC, "Ada")]) :=
  C8_duplicate_ignored envC (Grok.run [(envC, "Ada")]) "Ada" (by rfl) (by decide) (by rfl)

/-- C9: in the technical_questions stage (with no exit keyword in the
input), the answer that brings the count to five appends the feedback
and farewell messages, persists the record, and deactivates the
conversation (app.py also sets the farewell stage); an answer that
brings the count below five instead appends feedback plus the prompt for
the next question number, leaving the conversation active and nothing
persisted. -/
theorem C9_fifth_answer_terminates :
    ∀ (env : Env) (s : App.State) (t : Grok.State) (i : String),
      (s.stage = Stage.technical_questions →
        App.exit_keywords.any (fun keyword => hasSub keyword i.pyLower.pyStrip) = false →
        (s.tech_questions_asked = 4 →
          (App.process_user_input env s i).stage = Stage.farewell ∧
          (App.process_user_input env s i).conversation_active = false ∧
          (App.process_user_input env s i).candidate_data.technical_answers =
            s.candidate_data.technical_answers ++
              [TechnicalAnswer.mk (s.tech_questions_asked + 1) i env.tsIso] ∧
          (App.process_user_input env s i).messages = s.messages ++
            [Message.mk "assistant" (env.llm
               ("Provide brief encouraging feedback on this answer: " ++ i.pyTake 200)
               App.SP_evaluate_answer),
             Message.mk "assistant" (env.llm "Generate farewell message" App.SP_farewell)] ∧
          (env.fsErr = none →
            (App.process_user_input env s i).savedFiles.length = s.savedFiles.length + 1)) ∧
        (s.tech_questions_asked + 1 < 5 →
          (App.process_user_input env s i).stage = Stage.technical_questions ∧
          (App.process_user_input env s i).conversation_active = s.conversation_active ∧
          (App.process_user_input env s i).savedFiles = s.savedFiles ∧
          (App.process_user_input env s i).messages = s.messages ++
            [Message.mk "assistant" (env.llm
               ("Provide brief encouraging feedback on this answer: " ++ i.pyTake 200)
               App.SP_evaluate_answer),
             Message.mk "assistant"
               ("Please answer Question " ++ toString (s.tech_questions_asked + 1 + 1) ++ ":")])) ∧
      ((t.tech_questions_asked = 4 → env.fsErr = none →
          (Grok.process_user_input_technical env t i).conversation_active = false ∧
          (Grok.process_user_input_technical env t i).savedFiles.length =
            t.savedFiles.length + 1 ∧
          (Grok.process_user_input_technical env t i).messages = t.messages ++
            [Message.mk "assistant" (env.llm
               ("Brief encouraging feedback on the answer: " ++ i.pyTake 200 ++ "...")
               Grok.SP_evaluate_answer),
             Message.mk "assistant" (env.llm "Generate farewell" Grok.SP_farewell),
             Message.mk "assistant" ("✅ Data saved: `" ++ ("candidate_data/" ++
               Grok.sanitizedName t.candidate_data.name ++ "_" ++ env.tsFile ++ ".json") ++ "`")]) ∧
        (t.tech_questions_asked + 1 < 5 →
          (Grok.process_user_input_technical env t i).conversation_active =
            t.conversation_active ∧
          (Grok.process_user_input_technical env t i).savedFiles = t.savedFiles ∧
          (Grok.process_user_input_technical env t i).messages = t.messages ++
            [Message.mk "assistant" (env.llm
               ("Brief encouraging feedback on the answer: " ++ i.pyTake 200 ++ "...")
               Grok.SP_evaluate_answer),
             Message.mk "assistant"
               ("\n**Please answer Question " ++ toString (t.tech_questions_asked + 1 + 1) ++
                ":**")])) := by
  intro env s t i
  constructor
  · intro hs hx
    constructor
    · intro hc
      have h5 : ¬ (s.tech_questions_asked + 1 < 5) := by omega
      rw [App.process_noexit env s i hx, App.dispatch_tech_finish env s i hs h5]
      refine ⟨(App.save_session env _).1, (App.save_session env _).2.2.2.1, ?_, ?_, ?_⟩
      · rw [(App.save_session env _).2.1]
      · rw [(App.save_session env _).2.2.1]
      · intro e0
        rw [App.save_eq_ok env _ e0]
        simp
    · intro h5
      rw [App.process_noexit env s i hx, App.dispatch_tech_continue env s i hs h5]
      exact ⟨hs, rfl, rfl, rfl⟩
  · constructor
    · intro hc e0
      have h5 : ¬ (t.tech_questions_asked + 1 < 5) := by omega
      rw [Grok.tech_finish env t i h5]
      dsimp only
      rw [Grok.save_eq_okG env _ e0]
      refine ⟨rfl, by simp, by simp⟩
    · intro h5
      rw [Grok.tech_continue env t i h5]
      exact ⟨rfl, rfl, rfl⟩

/-- A concrete app_grok.py state one answer away from the fifth. -/
def grokTechSave : Grok.State :=
  { grokTechState with tech_questions_asked := 4 }

/-- Witness for C9 at concrete states with four and with zero answers. -/
theorem C9_witness :
    (App.process_user_input envC appTechSave "my answer").stage = Stage.farewell ∧
    (App.process_user_input envC appTechSave "my answer").conversation_active = false ∧
    (App.process_user_input envC appTechState "my answer").stage = Stage.technical_questions ∧
    (Grok.process_user_input_technical envC grokTechSave "my answer").conversation_active = false ∧
    (Grok.process_user_input_technical envC grokTechSave "my answer").savedFiles.length =
      grokTechSave.savedFiles.length + 1 ∧
    (Grok.process_user_input_technical envC grokTechState "my answer").conversation_active =
      grokTechState.conversation_active :=
  ⟨(((C9_fifth_answer_terminates envC appTechSave grokTechSave "my answer").1 rfl (by rfl)).1 rfl).1,
   (((C9_fifth_answer_terminates envC appTechSave grokTechSave "my answer").1 rfl (by rfl)).1 rfl).2.1,
   (((C9_fifth_answer_terminates envC appTechState grokTechState "my answer").1 rfl (by rfl)).2 (by decide)).1,
   (((C9_fifth_answer_terminates envC appTechSave grokTechSave "my answer").2.1 rfl rfl)).1,
   (((C9_fifth_answer_terminates envC appTechSave grokTechSave "my answer").2.1 rfl rfl)).2.1,
   (((C9_fifth_answer_terminates envC appTechState grokTechState "my answer").2.2 (by decide))).1⟩

/-- C10: exit detection is substring containment, not whole-word match —
"backend" contains "end" and "unstoppable" contains "stop", so such
inputs end the conversation and persist the record even mid-collection;
and app.py's keyword list extends the six spec keywords with the phrases
"no thanks" and "that's all", while app_grok.py's list is exactly the
six. -/
theorem C10_substring_exit_matching :
    hasSub "end" (String.pyLower "I build backend services") = true ∧
    hasSub "stop" (String.pyLower "I am unstoppable") = true ∧
    (Grok.turn envC (Grok.run [(envC, "Ada")]) "I build backend services").conversation_active =
      false ∧
    (Grok.turn envC (Grok.run [(envC, "Ada")]) "I build backend services").savedFiles.length = 1 ∧
    (Grok.turn envC (Grok.run [(envC, "Ada")]) "I build backend services").candidate_data =
      (Grok.run [(envC, "Ada")]).candidate_data ∧
    (App.turn envC appCollectState "I am unstoppable").conversation_active = false ∧
    (App.turn envC appCollectState "I am unstoppable").stage = Stage.farewell ∧
    (App.turn envC appCollectState "I am unstoppable").savedFiles.length = 1 ∧
    App.exit_keywords = specExitKeywords ++ ["no thanks", "that\x27s all"] ∧
    Grok.exit_keywords = specExitKeywords ∧
    ("no thanks" ∈ App.exit_keywords ∧ "no thanks" ∉ Grok.exit_keywords) := by
  exact ⟨by decide, by decide, by rfl, by rfl, by rfl, by rfl, by rfl, by rfl, rfl, rfl,
    by decide, by decide⟩
